import Mathlib

/-!
Shallow embedding of the per-query resolution engine of the resolver
(`RecursiveQuery` / `RunningQuery` in `recursive_query.cc`), together with
the two `RecursiveQuery::resolve` overloads.  The state machine is embedded
as a pure step function over an explicit state record; asynchronous events
(UDP completion, timer fires, NSAS callbacks) are modelled as an event type
with an admissibility relation, serialized as in the single-threaded event
loop.  Ghost fields (an action trace and a few counters) record externally
visible effects: caller callbacks, cache inserts, RTT feedback, dispatched
fetches and NSAS lookups.
-/

namespace KeaResolver

/-- Domain names are modelled by their text form, as the code itself does for
`cur_zone_` (`rrs.getName().toText()`). -/
abbrev Name := String

/-- RR type code of NS records (`RRType::NS()`). -/
def nsType : Nat := 2

/-- DNS opcode QUERY. -/
def opcodeQuery : Nat := 0

/-- RCODE NOERROR. -/
def rcNOERROR : Nat := 0

/-- RCODE SERVFAIL. -/
def rcSERVFAIL : Nat := 2

/-- `RESOLVER_MAX_CNAME_CHAIN` from `lib/resolve/response_classifier.h`. -/
def MAX_CNAME_CHAIN : Nat := 16

/-- `isc::nsas::AddressEntry::UNREACHABLE` (the uint32_t RTT penalty value). -/
def UNREACHABLE : Nat := 2 ^ 32 - 1

/-- A question: owner name, class, type. -/
structure Question where
  qname : Name
  qclass : Nat
  qtype : Nat
deriving DecidableEq, Repr

/-- An RRset, abstracted to its owner name, type and opaque data.  In this
embedding one entry of a section list stands for one resource record, so
`getRRCount` of a section is the length of its list. -/
structure RRset where
  owner : Name
  rrtype : Nat
  rdata : String
deriving DecidableEq, Repr

/-- A DNS message, abstracted to the fields the engine reads and writes. -/
structure Msg where
  opcode : Nat
  rcode : Nat
  question : List Question
  answer : List RRset
  authority : List RRset
  additional : List RRset
deriving DecidableEq, Repr

/-- A freshly constructed `Message(Message::RENDER)`. -/
def emptyMsg : Msg := ⟨0, 0, [], [], [], []⟩

/-- Modelled from the spec: `isc::resolve::initResponseMessage` (in
`lib/resolve`, not part of this tree) builds "an empty AnswerMessage
initialized as a QUERY response containing `question`". -/
def initResponseMessage (q : Question) : Msg :=
  { emptyMsg with opcode := opcodeQuery, question := [q] }

/-- Modelled from the spec: `isc::resolve::copyResponseMessage` (in
`lib/resolve`, not part of this tree) copies a terminal response into the
accumulating AnswerMessage: the RCODE is copied from the terminal response
and the ANSWER section is appended to the already accumulated one
("the final terminal message's ANSWER section is copied in as well"). -/
def copyResponseMessage (incoming target : Msg) : Msg :=
  { target with
    rcode := incoming.rcode,
    answer := target.answer ++ incoming.answer,
    authority := target.authority ++ incoming.authority,
    additional := target.additional ++ incoming.additional }

/-- Modelled from the spec: `isc::resolve::makeErrorMessage` (in
`lib/resolve`, not part of this tree) clears ANSWER/AUTHORITY/ADDITIONAL on
the message and sets the RCODE, preserving the echoed question. -/
def makeErrorMessage (m : Msg) (rc : Nat) : Msg :=
  { m with rcode := rc, answer := [], authority := [], additional := [] }

/-- The resolver cache, keyed by the question section, with the separate
single-RRset table used by `resolve`'s fallback probe. -/
structure Cache where
  msgs : List (Question × Msg)
  rrsets : List (Question × RRset)
deriving DecidableEq, Repr

/-- `ResolverCache::lookup(name, type, class, Message&)`: full-message probe. -/
def Cache.lookupMsg (c : Cache) (q : Question) : Option Msg :=
  (c.msgs.find? (fun p => p.1 == q)).map Prod.snd

/-- The key under which `ResolverCache::update` stores a message: its
question section. -/
def msgKey (m : Msg) : Option Question := m.question.head?

/-- `ResolverCache::update(Message)`: insert or overwrite, keyed by the
question section. -/
def Cache.updateMsg (c : Cache) (m : Msg) : Cache :=
  match msgKey m with
  | some q => { c with msgs := (q, m) :: c.msgs.filter (fun p => !(p.1 == q)) }
  | none => c

/-- `ResolverCache::lookup(name, type, class)`: single-RRset probe. -/
def Cache.lookupRRset (c : Cache) (q : Question) : Option RRset :=
  (c.rrsets.find? (fun p => p.1 == q)).map Prod.snd

/-- The categories returned by `ResponseClassifier::classify`
(enumerated in the `switch` of `handleRecursiveAnswer`). -/
inductive Category
  | ANSWER | ANSWERCNAME | CNAME | NXDOMAIN | NXRRSET | REFERRAL
  | EMPTY | EXTRADATA | INVNAMCLASS | INVTYPE | MISMATQUEST | MULTICLASS
  | NOTONEQUEST | NOTRESPONSE | NOTSINGLE | OPCODE | RCODE | TRUNCATED
deriving DecidableEq, Repr

/-- The error categories (the fall-through block of the `switch`). -/
def Category.isError : Category → Bool
  | .EMPTY | .EXTRADATA | .INVNAMCLASS | .INVTYPE | .MISMATQUEST | .MULTICLASS
  | .NOTONEQUEST | .NOTRESPONSE | .NOTSINGLE | .OPCODE | .RCODE | .TRUNCATED => true
  | _ => false

/-- The external collaborators of the engine that behave as pure functions:
the response classifier (out of scope per the spec; it returns a category
and, in the CNAME cases, the chased target name) and the `rand()` stream
used for random forwarder selection. -/
structure Env where
  classify : Question → Msg → Category × Name
  rand : Nat → Nat

/-- The state of one `asio::deadline_timer` as the engine observes it:
`inactive` (never armed), `armed` (wait outstanding), `aborted` (cancelled
while armed; the bound handler still runs, as `boost::bind` ignores the
error argument), `fired` (handler dispatched). -/
inductive TimerSt
  | inactive | armed | aborted | fired
deriving DecidableEq, Repr

/-- The value returned by `deadline_timer::cancel()`: the number of waits
cancelled. -/
def TimerSt.cancelCount : TimerSt → Nat
  | .armed => 1
  | _ => 0

/-- The timer state after `deadline_timer::cancel()`. -/
def TimerSt.afterCancel : TimerSt → TimerSt
  | .armed => .aborted
  | t => t

/-- A `struct timeval` as used around `gettimeofday`. -/
structure Timeval where
  sec : Nat
  usec : Nat
deriving DecidableEq, Repr

/-- Ghost record of an externally visible action of the engine, in program
order: caller callbacks, cache inserts, posted UDP fetches, NSAS traffic,
RTT feedback, and response parses (`Message::fromWire`). -/
inductive Action
  | success (m : Msg)
  | failure
  | cacheUpdate (m : Msg)
  | fetch (addr : Name)
  | nsasLookup (zone : Name)
  | nsasCancel (zone : Name)
  | rttUpdate (addr : Name) (v : Nat)
  | parsed (m : Msg)
deriving DecidableEq, Repr

/-- Is this action a caller callback (success or failure)? -/
def Action.isSignal : Action → Bool
  | .success _ => true
  | .failure => true
  | _ => false

/-- The mutable state of one `RunningQuery`, plus ghost instrumentation.
Ghost fields: `trace` (the action log), `assertFailed` (set if the
`assert(!nsas_callback_out_)` in `send` would fail), `fetches` (UDP fetches
posted), `stepSends` (executions of `send` from `doLookup` or the referral
branch), `retryCount` (executions of `send` from the retry branch),
`nsasOut` (currently outstanding NSAS requests). -/
structure RQState where
  question : Question
  answer : Msg
  upstream : List (Name × Nat)
  cname_count : Nat
  retries : Nat
  client_timer : TimerSt
  client_timer_canceled : Bool
  lookup_timer : TimerSt
  queries_out : Nat
  done : Bool
  answer_sent : Bool
  cur_zone : Name
  nsas_callback_out : Bool
  current_ns_address : Name
  current_ns_qsent_time : Timeval
  cache : Cache
  deleted : Bool
  randIdx : Nat
  trace : List Action
  assertFailed : Bool
  fetches : Nat
  stepSends : Nat
  retryCount : Nat
  nsasOut : Nat
deriving DecidableEq, Repr

/-- Append one ghost action to the trace. -/
def addTrace (a : Action) (s : RQState) : RQState :=
  { s with trace := s.trace ++ [a] }

/-- Number of caller callbacks recorded so far. -/
def sigCount (s : RQState) : Nat :=
  (s.trace.filter Action.isSignal).length

/-- `recursive_mode()`: true iff the upstream (forwarder) list is empty. -/
def RQState.recursiveMode (s : RQState) : Bool := s.upstream.isEmpty

/-- `makeSERVFAIL()`: clear the answer parts and set RCODE to SERVFAIL. -/
def makeSERVFAIL (s : RQState) : RQState :=
  { s with answer := makeErrorMessage s.answer rcSERVFAIL }

/-- `resolvercallback_->success(answer_message_)`. -/
def signalSuccess (s : RQState) : RQState := addTrace (.success s.answer) s

/-- `resolvercallback_->failure()`. -/
def signalFailure (s : RQState) : RQState := addTrace .failure s

/-- `cache_.update(m)` performed by the engine, with its ghost trace entry. -/
def cacheInsert (m : Msg) (s : RQState) : RQState :=
  addTrace (.cacheUpdate m) { s with cache := s.cache.updateMsg m }

/-- `RunningQuery::stop(resume)`, the single exit path: set `done`; if no
answer was delivered yet, deliver it (inserting the accumulated answer into
the cache first when `resume`); otherwise cancel the lookup timer, then the
client timer, then wait out outstanding queries, then cancel any outstanding
NSAS request, then self-destruct. -/
def stop (resume : Bool) (s : RQState) : RQState :=
  let s := { s with done := true }
  if s.answer_sent = false then
    let s := { s with answer_sent := true }
    if resume then
      signalSuccess (cacheInsert s.answer s)
    else
      signalFailure s
  else
    let ln := s.lookup_timer.cancelCount
    let s := { s with lookup_timer := s.lookup_timer.afterCancel }
    if ln ≠ 0 then s
    else
      let cn := s.client_timer.cancelCount
      let s := { s with client_timer := s.client_timer.afterCancel }
      if cn ≠ 0 then { s with client_timer_canceled := true }
      else if 0 < s.queries_out then s
      else
        let s :=
          if s.nsas_callback_out then
            addTrace (.nsasCancel s.cur_zone)
              { s with nsas_callback_out := false, nsasOut := s.nsasOut - 1 }
          else s
        { s with deleted := true }

/-- `RunningQuery::clientTimeout()`: return a SERVFAIL success if no answer
was sent yet, but do not stop; if the fire was due to a cancellation from
`stop`, re-enter `stop`. -/
def clientTimeout (s : RQState) : RQState :=
  let s :=
    if s.answer_sent = false then
      signalSuccess (makeSERVFAIL { s with answer_sent := true })
    else s
  if s.client_timer_canceled then stop false s else s

/-- `RunningQuery::sendTo(address)`: record the address and the send wall
clock, and post the UDP fetch. -/
def sendTo (addr : Name) (now : Timeval) (s : RQState) : RQState :=
  addTrace (.fetch addr)
    { s with
      current_ns_address := addr,
      current_ns_qsent_time := now,
      queries_out := s.queries_out + 1,
      fetches := s.fetches + 1 }

/-- `RunningQuery::send()`: in forwarding mode pick a random forwarder and
post a UDP fetch; in iterative mode assert that no NSAS request is
outstanding and dispatch an NSAS lookup for the current zone. -/
def send (env : Env) (s : RQState) : RQState :=
  let uc := s.upstream.length
  if 0 < uc then
    let serverIndex := env.rand s.randIdx % uc
    let dest := s.upstream.getD serverIndex ("", 0)
    addTrace (.fetch dest.1)
      { s with
        randIdx := s.randIdx + 1,
        queries_out := s.queries_out + 1,
        fetches := s.fetches + 1 }
  else
    if s.nsas_callback_out then { s with assertFailed := true }
    else
      addTrace (.nsasLookup s.cur_zone)
        { s with nsas_callback_out := true, nsasOut := s.nsasOut + 1 }

/-- The state mutation of the CNAME case after the chain-length check:
append the incoming ANSWER section to the accumulating answer and rebind the
question to the CNAME target with the same class and type.  The increment of
`cname_count` models the by-reference increment performed inside the
out-of-scope classifier (`classify` receives `cname_count_` by reference and
advances it by one per CNAME hop, per the spec's scenarios 4 and 5); the
check in the code reads the already incremented value. -/
def cnameRebind (target : Name) (incoming : Msg) (s : RQState) : RQState :=
  { s with
    cname_count := s.cname_count + 1,
    answer := { s.answer with answer := s.answer.answer ++ incoming.answer },
    question := ⟨target, s.question.qclass, s.question.qtype⟩ }

/-- Scan of the AUTHORITY section of a referral for the first NS RRset
(wire order), returning its owner name as the new zone. -/
def findNSZone : List RRset → Option Name
  | [] => none
  | r :: rest => if r.rrtype = nsType then some r.owner else findNSZone rest

/-- `RunningQuery::handleRecursiveAnswer(incoming)`: classify the response
and act on the category.  Returns (done, state).  The CNAME case re-enters
`doLookup`, whose body is inlined at the recursive call for termination
(the chain counter strictly increases and is checked against
`MAX_CNAME_CHAIN`). -/
def handleRecursiveAnswer (env : Env) (incoming : Msg) (s : RQState) :
    Bool × RQState :=
  match (env.classify s.question incoming).1 with
  | .ANSWER =>
      let s := cacheInsert incoming s
      (true, { s with answer := copyResponseMessage incoming s.answer })
  | .ANSWERCNAME =>
      let s := cacheInsert incoming s
      (true, { s with answer := copyResponseMessage incoming s.answer })
  | .CNAME =>
      if h16 : MAX_CNAME_CHAIN ≤ s.cname_count + 1 then
        (true, makeSERVFAIL
          { cacheInsert incoming s with cname_count := s.cname_count + 1 })
      else
        let s3 := cnameRebind (env.classify s.question incoming).2 incoming
          (cacheInsert incoming s)
        match s3.cache.lookupMsg s3.question with
        | some m =>
            let r := handleRecursiveAnswer env m s3
            (false, if r.1 then stop true r.2 else r.2)
        | none =>
            (false, send env
              { s3 with cur_zone := ".", stepSends := s3.stepSends + 1 })
  | .NXDOMAIN =>
      (true, { s with answer := copyResponseMessage incoming s.answer })
  | .NXRRSET =>
      (true, { s with answer := copyResponseMessage incoming s.answer })
  | .REFERRAL =>
      let s := cacheInsert incoming s
      match findNSZone incoming.authority with
      | some zone =>
          (false, send env
            { s with cur_zone := zone, stepSends := s.stepSends + 1 })
      | none =>
          (true, { s with answer := copyResponseMessage incoming s.answer })
  | _ =>
      (true, makeSERVFAIL s)
termination_by MAX_CNAME_CHAIN - s.cname_count
decreasing_by
  simp only [cnameRebind, cacheInsert, addTrace]
  omega

/-- `RunningQuery::doLookup()`: probe the cache for the current question; on
a hit feed the cached message to `handleRecursiveAnswer` and `stop(true)` if
that is final; on a miss set the current zone to the root and `send`. -/
def doLookup (env : Env) (s : RQState) : RQState :=
  match s.cache.lookupMsg s.question with
  | some m =>
      let r := handleRecursiveAnswer env m s
      if r.1 then stop true r.2 else r.2
  | none =>
      send env { s with cur_zone := ".", stepSends := s.stepSends + 1 }

/-- The result of one `IOFetch`, as delivered to `operator()`: either a
successfully received (and parseable) response together with the wall clock
at completion, or `TIME_OUT`. -/
inductive FetchResult
  | success (incoming : Msg) (now : Timeval)
  | timeout
deriving DecidableEq, Repr

/-- The RTT computation of `operator()`: whole milliseconds when the current
wall clock exceeds the send timestamp in the seconds field (non-strictly)
and the microseconds field (strictly); 1 ms otherwise.  The stored value is
a `uint32_t`, hence the truncation. -/
def computeRTT (now sent : Timeval) : Nat :=
  if sent.sec ≤ now.sec ∧ sent.usec < now.usec then
    (1000 * (now.sec - sent.sec) + (now.usec - sent.usec) / 1000) % 2 ^ 32
  else 1

/-- The final `else` block of `operator()` (out of retries, or already
done): apply the UNREACHABLE penalty in iterative mode, SERVFAIL the answer
if none was delivered yet, and `stop(!answer_sent_)`. -/
def giveUp (s : RQState) : RQState :=
  let s :=
    if s.recursiveMode then
      addTrace (.rttUpdate s.current_ns_address UNREACHABLE) s
    else s
  let s := if s.answer_sent = false then makeSERVFAIL s else s
  stop (!s.answer_sent) s

/-- `RunningQuery::operator()(result)`, the `IOFetch` callback: decrement
`queries_out`; if not done and not a timeout, report the RTT, parse the
response and either recurse on it (iterative mode, NOERROR) or copy it
verbatim as final; if not done and a timeout with retries remaining
(`retries_--`, unsigned post-decrement), resend; otherwise give up. -/
def handleFetch (env : Env) (res : FetchResult) (s : RQState) : RQState :=
  let s := { s with queries_out := s.queries_out - 1 }
  match res with
  | .success incoming now =>
      if s.done = false then
        let rtt := computeRTT now s.current_ns_qsent_time
        let s := addTrace (.rttUpdate s.current_ns_address rtt) s
        let s := addTrace (.parsed incoming) s
        if s.recursiveMode = true ∧ incoming.rcode = rcNOERROR then
          let r := handleRecursiveAnswer env incoming s
          let s := { r.2 with done := r.1 }
          if s.done then stop true s else s
        else
          stop true
            { s with
              answer := copyResponseMessage incoming s.answer, done := true }
      else giveUp s
  | .timeout =>
      if s.done = false then
        let oldr := s.retries
        let s := { s with retries := if oldr = 0 then 2 ^ 32 - 1 else oldr - 1 }
        if oldr ≠ 0 then
          let s := { s with retryCount := s.retryCount + 1 }
          let s :=
            if s.recursiveMode then
              addTrace (.rttUpdate s.current_ns_address UNREACHABLE) s
            else s
          send env s
        else giveUp s
      else giveUp s

/-- `RunningQuery::nsasCallbackCalled()`: the NSAS request is no longer
outstanding. -/
def nsasCallbackCalled (s : RQState) : RQState :=
  { s with nsas_callback_out := false, nsasOut := s.nsasOut - 1 }

/-- The asynchronous events that can be delivered to a `RunningQuery` by the
event loop. -/
inductive Event
  | udp (res : FetchResult)
  | clientFire
  | lookupFire
  | nsasSuccess (addr : Name) (now : Timeval)
  | nsasUnreachable
deriving DecidableEq, Repr

/-- One serialized event-loop dispatch.  A timer handler runs with its wait
completed, so the timer is marked `fired` before the handler body.  The NSAS
callbacks first run `nsasCallbackCalled`, then `sendTo` respectively
`makeSERVFAIL(); stop(false)`. -/
def step (env : Env) (e : Event) (s : RQState) : RQState :=
  match e with
  | .udp res => handleFetch env res s
  | .clientFire => clientTimeout { s with client_timer := .fired }
  | .lookupFire => stop false { s with lookup_timer := .fired }
  | .nsasSuccess addr now => sendTo addr now (nsasCallbackCalled s)
  | .nsasUnreachable => stop false (makeSERVFAIL (nsasCallbackCalled s))

/-- Admissibility of an event: the loop only delivers a UDP completion while
a fetch is outstanding, a timer fire while the timer is armed or was
cancelled with its handler still pending, and an NSAS callback while the
request is outstanding (`NSAS.cancel` guarantees no callback after cancel);
nothing is delivered to a destroyed query. -/
def canFire (s : RQState) : Event → Prop
  | .udp _ => s.deleted = false ∧ 0 < s.queries_out
  | .clientFire =>
      s.deleted = false ∧ (s.client_timer = .armed ∨ s.client_timer = .aborted)
  | .lookupFire =>
      s.deleted = false ∧ (s.lookup_timer = .armed ∨ s.lookup_timer = .aborted)
  | .nsasSuccess _ _ => s.deleted = false ∧ s.nsas_callback_out = true
  | .nsasUnreachable => s.deleted = false ∧ s.nsas_callback_out = true

instance (s : RQState) (e : Event) : Decidable (canFire s e) := by
  cases e <;> (dsimp [canFire]; infer_instance)

/-- The configuration a `RecursiveQuery` passes to each `RunningQuery`. -/
structure Config where
  upstream : List (Name × Nat)
  query_timeout : Int
  client_timeout : Int
  lookup_timeout : Int
  retries : Nat
deriving DecidableEq, Repr

/-- The member-initializer part of the `RunningQuery` constructor, including
the arming of the two timers (a timer is armed iff its timeout is ≥ 0). -/
def initialState (cfg : Config) (q : Question) (ans : Msg) (cache : Cache) :
    RQState where
  question := q
  answer := ans
  upstream := cfg.upstream
  cname_count := 0
  retries := cfg.retries
  client_timer := if 0 ≤ cfg.client_timeout then .armed else .inactive
  client_timer_canceled := false
  lookup_timer := if 0 ≤ cfg.lookup_timeout then .armed else .inactive
  queries_out := 0
  done := false
  answer_sent := false
  cur_zone := ""
  nsas_callback_out := false
  current_ns_address := ""
  current_ns_qsent_time := ⟨0, 0⟩
  cache := cache
  deleted := false
  randIdx := 0
  trace := []
  assertFailed := false
  fetches := 0
  stepSends := 0
  retryCount := 0
  nsasOut := 0

/-- The full `RunningQuery` constructor: initialize members, arm the timers,
then run the initial `doLookup()`. -/
def mkRunningQuery (env : Env) (cfg : Config) (q : Question) (ans : Msg)
    (cache : Cache) : RQState :=
  doLookup env (initialState cfg q ans cache)

/-- Reachability: states obtainable from a start state by a sequence of
admissible serialized events. -/
inductive Reach (env : Env) : RQState → RQState → Prop
  | refl (s : RQState) : Reach env s s
  | tail {s0 s : RQState} (e : Event) :
      Reach env s0 s → canFire s e → Reach env s0 (step env e s)

/-- The observable outcome of a call to `RecursiveQuery::resolve`: the
actions performed synchronously on the caller's stack for the cache-hit
paths, and the spawned `RunningQuery` (post-constructor, whose own trace
holds anything the constructor did synchronously) otherwise. -/
structure ResolveOut where
  trace : List Action
  spawned : Option RQState
deriving DecidableEq, Repr

/-- `RecursiveQuery::resolve(const QuestionPtr&, CallbackPtr)`: build a
fresh response message for the question; probe the cache for a full message
and answer from it if it has at least one ANSWER RR; otherwise probe for a
single RRset and answer from that; otherwise spawn a `RunningQuery`.  A
failed `>0` check leaves the answer message filled by the probe, and that
message is what the `RunningQuery` receives. -/
def resolve1 (env : Env) (cfg : Config) (cache : Cache) (q : Question) :
    ResolveOut :=
  let answer := initResponseMessage q
  let answer2 :=
    match cache.lookupMsg q with
    | some m => m
    | none => answer
  if (cache.lookupMsg q).isSome ∧ 0 < answer2.answer.length then
    { trace := [.success { answer2 with rcode := rcNOERROR }], spawned := none }
  else
    match cache.lookupRRset q with
    | some rrset =>
        { trace := [.success
            { answer2 with
              answer := answer2.answer ++ [rrset], rcode := rcNOERROR }],
          spawned := none }
    | none =>
        { trace := [],
          spawned := some (mkRunningQuery env cfg q answer2 cache) }

/-- `RecursiveQuery::resolve(const Question&, MessagePtr, OutputBufferPtr,
DNSServer*)`: wrap the server in a `ResolverCallbackServer`, set the opcode
of the supplied answer message to QUERY and add the question, then perform
the same cache probes and the same spawn as the other overload. -/
def resolve2 (env : Env) (cfg : Config) (cache : Cache) (q : Question)
    (answer0 : Msg) : ResolveOut :=
  let answer :=
    { answer0 with opcode := opcodeQuery, question := answer0.question ++ [q] }
  let answer2 :=
    match cache.lookupMsg q with
    | some m => m
    | none => answer
  if (cache.lookupMsg q).isSome ∧ 0 < answer2.answer.length then
    { trace := [.success { answer2 with rcode := rcNOERROR }], spawned := none }
  else
    match cache.lookupRRset q with
    | some rrset =>
        { trace := [.success
            { answer2 with
              answer := answer2.answer ++ [rrset], rcode := rcNOERROR }],
          spawned := none }
    | none =>
        { trace := [],
          spawned := some (mkRunningQuery env cfg q answer2 cache) }

/-- 1 if the flag is set, 0 otherwise. -/
def flagBit (b : Bool) : Nat := bif b then 1 else 0

/-- The event-independent part of the inductive invariant of a
`RunningQuery`: single-signal discipline, the NSAS assertion, resource
counting, and the CNAME bound. -/
structure Core (s : RQState) : Prop where
  sig_le : sigCount s ≤ 1
  sent_iff : s.answer_sent = true ↔ sigCount s = 1
  assertOk : s.assertFailed = false
  nsasOut_eq : s.nsasOut = flagBit s.nsas_callback_out
  fetch_le : s.fetches + flagBit s.nsas_callback_out ≤ s.stepSends + s.retryCount
  q_le : s.queries_out ≤ 1
  nsas_q : s.nsas_callback_out = true → s.queries_out = 0
  del : s.deleted = true →
    s.answer_sent = true ∧ s.queries_out = 0 ∧ s.nsas_callback_out = false
  cname_le : s.cname_count ≤ MAX_CNAME_CHAIN

/-- The full inductive invariant, relative to the configured retry count
`r0`: the core plus the retry accounting and the fact that once the CNAME
counter has hit the bound the query can never classify another response. -/
structure Inv (r0 : Nat) (s : RQState) extends Core s : Prop where
  cname_max : s.cname_count = MAX_CNAME_CHAIN →
    s.done = true ∨ (s.queries_out = 0 ∧ s.nsas_callback_out = false)
  retr_eq : s.done = false → s.retryCount + s.retries = r0
  retr_le : s.retryCount ≤ r0

/-- A sample environment: a classifier consistent with the spec's table
(NOERROR responses with answers are ANSWER, empty NOERROR responses are
REFERRAL, and a bad RCODE is the RCODE error category), and a fixed rand
stream. -/
def env0 : Env where
  classify := fun _ m =>
    (if m.rcode = rcNOERROR then
       (if m.answer.isEmpty then .REFERRAL else .ANSWER)
     else .RCODE, ".")
  rand := fun _ => 0

/-- A sample environment whose classifier always answers CNAME towards
"target.test.". -/
def envC : Env where
  classify := fun _ _ => (.CNAME, "target.test.")
  rand := fun _ => 0

/-- A sample question. -/
def q0 : Question := ⟨"example.com.", 1, 1⟩

/-- A forwarding-mode configuration (one upstream forwarder). -/
def cfgF : Config := ⟨[("8.8.8.8", 53)], 2000, 100, 5000, 2⟩

/-- An iterative-mode configuration (empty upstream list). -/
def cfgI : Config := ⟨[], 2000, 100, 5000, 2⟩

/-- A sample positive answer for `q0`. -/
def mAns : Msg := ⟨0, 0, [q0], [⟨"example.com.", 1, "1.2.3.4"⟩], [], []⟩

/-- A SERVFAIL message for `q0` with an empty ANSWER section, as the engine
itself caches after a failed resolution (`stop(true)` inserts the
accumulated answer even when it was made SERVFAIL). -/
def mSF : Msg := ⟨0, 2, [q0], [], [], []⟩

/-- A cache holding only `mSF` under the key of `q0`. -/
def cacheSF : Cache := ⟨[(q0, mSF)], []⟩

/-- The empty cache. -/
def cache0 : Cache := ⟨[], []⟩

/-- The spawned state of the forwarding-mode scenario: fresh query, empty
cache, one forwarder. -/
def sF0 : RQState := mkRunningQuery env0 cfgF q0 (initResponseMessage q0) cache0

/-- Forwarding scenario after the client timer fires. -/
def sF1 : RQState := step env0 .clientFire sF0

/-- Forwarding scenario after the valid answer then arrives. -/
def sF2 : RQState := step env0 (.udp (.success mAns ⟨3, 500⟩)) sF1

/-- The spawned state of the iterative-mode scenario: fresh query, empty
cache, no forwarders (the NSAS lookup for the root zone is dispatched). -/
def sI0 : RQState := mkRunningQuery env0 cfgI q0 (initResponseMessage q0) cache0

/-- Iterative scenario after the NSAS delivers a nameserver address and the
UDP fetch is posted. -/
def sI1 : RQState := step env0 (.nsasSuccess "9.9.9.9" ⟨1, 0⟩) sI0

theorem sigCount_addTrace (a : Action) (s : RQState) :
    sigCount (addTrace a s) = sigCount s + flagBit a.isSignal := by
  simp only [sigCount, addTrace, List.filter_append, List.length_append, flagBit]
  cases a <;> simp [Action.isSignal]

theorem sigCount_cacheInsert (m : Msg) (s : RQState) :
    sigCount (cacheInsert m s) = sigCount s := by
  simp [cacheInsert, addTrace, sigCount, Action.isSignal, List.filter_append]

theorem sigCount_signalSuccess (s : RQState) :
    sigCount (signalSuccess s) = sigCount s + 1 := by
  simp [signalSuccess, addTrace, sigCount, Action.isSignal, List.filter_append]

theorem sigCount_signalFailure (s : RQState) :
    sigCount (signalFailure s) = sigCount s + 1 := by
  simp [signalFailure, addTrace, sigCount, Action.isSignal, List.filter_append]

theorem sigCount_makeSERVFAIL (s : RQState) :
    sigCount (makeSERVFAIL s) = sigCount s := rfl

theorem stop_unchanged (b : Bool) (s : RQState) :
    (stop b s).question = s.question ∧
    (stop b s).upstream = s.upstream ∧
    (stop b s).cname_count = s.cname_count ∧
    (stop b s).retries = s.retries ∧
    (stop b s).retryCount = s.retryCount ∧
    (stop b s).stepSends = s.stepSends ∧
    (stop b s).fetches = s.fetches ∧
    (stop b s).queries_out = s.queries_out ∧
    (stop b s).assertFailed = s.assertFailed ∧
    (stop b s).randIdx = s.randIdx := by
  simp only [stop]
  split_ifs <;>
    simp [signalSuccess, signalFailure, cacheInsert, addTrace]

theorem stop_done (b : Bool) (s : RQState) : (stop b s).done = true := by
  simp only [stop]
  split_ifs <;> simp [signalSuccess, signalFailure, cacheInsert, addTrace]

theorem stop_sent (b : Bool) (s : RQState) : (stop b s).answer_sent = true := by
  simp only [stop]
  split_ifs with h <;>
    simp_all [signalSuccess, signalFailure, cacheInsert, addTrace]

theorem stop_sig (b : Bool) (s : RQState) :
    sigCount (stop b s) =
      if s.answer_sent = false then sigCount s + 1 else sigCount s := by
  simp only [stop]
  split_ifs <;>
    simp_all [signalSuccess, signalFailure, cacheInsert, addTrace, sigCount,
      Action.isSignal, List.filter_append]

theorem stop_trace_mono (b : Bool) (s : RQState) :
    s.trace <+: (stop b s).trace := by
  simp only [stop]
  split_ifs <;>
    simp [signalSuccess, signalFailure, cacheInsert, addTrace,
      List.prefix_append, List.append_assoc]

theorem stop_nsas (b : Bool) (s : RQState) :
    ((stop b s).nsas_callback_out = s.nsas_callback_out ∧
      (stop b s).nsasOut = s.nsasOut ∧ (stop b s).deleted = s.deleted) ∨
    ((stop b s).nsas_callback_out = false ∧
      (stop b s).nsasOut = s.nsasOut - flagBit s.nsas_callback_out ∧
      (stop b s).deleted = true ∧ s.answer_sent = true ∧ s.queries_out = 0) := by
  simp only [stop]
  split_ifs <;>
    simp_all [signalSuccess, signalFailure, cacheInsert, addTrace, flagBit]

theorem sig_zero_of_not_sent {s : RQState} (h1 : sigCount s ≤ 1)
    (h2 : s.answer_sent = true ↔ sigCount s = 1) (hb : s.answer_sent = false) :
    sigCount s = 0 := by
  have hne : ¬ sigCount s = 1 := fun hh => by simp [h2.mpr hh] at hb
  omega

theorem core_stop (b : Bool) {s : RQState} (h : Core s) : Core (stop b s) := by
  obtain ⟨h1, h2, h3, h4, h5, h6, h7, h8, h9⟩ := h
  obtain ⟨u1, u2, u3, u4, u5, u6, u7, u8, u9, u10⟩ := stop_unchanged b s
  have hsig := stop_sig b s
  have hsent := stop_sent b s
  have hflag : flagBit (stop b s).nsas_callback_out ≤ flagBit s.nsas_callback_out := by
    rcases stop_nsas b s with ⟨n1, n2, n3⟩ | ⟨n1, n2, n3, n4, n5⟩ <;>
      simp [n1, flagBit] <;> cases s.nsas_callback_out <;> simp [flagBit]
  refine ⟨?_, ?_, ?_, ?_, ?_, ?_, ?_, ?_, ?_⟩
  · rw [hsig]; split_ifs with hb
    · have := sig_zero_of_not_sent h1 h2 hb; omega
    · exact h1
  · rw [hsent, hsig]; split_ifs with hb
    · have := sig_zero_of_not_sent h1 h2 hb; simp [this]
    · have hbt : s.answer_sent = true := by revert hb; cases s.answer_sent <;> simp
      simp [h2.mp hbt]
  · rw [u9]; exact h3
  · rcases stop_nsas b s with ⟨n1, n2, n3⟩ | ⟨n1, n2, n3, n4, n5⟩
    · rw [n2, n1, h4]
    · rw [n2, n1, h4]; cases s.nsas_callback_out <;> simp [flagBit]
  · rw [u7, u6, u5]; omega
  · rw [u8]; exact h6
  · intro hf
    rcases stop_nsas b s with ⟨n1, n2, n3⟩ | ⟨n1, n2, n3, n4, n5⟩
    · rw [n1] at hf; rw [u8]; exact h7 hf
    · rw [n1] at hf; cases hf
  · intro hd
    rcases stop_nsas b s with ⟨n1, n2, n3⟩ | ⟨n1, n2, n3, n4, n5⟩
    · rw [n3] at hd
      obtain ⟨d1, d2, d3⟩ := h8 hd
      exact ⟨hsent, u8 ▸ d2, n1 ▸ d3⟩
    · exact ⟨hsent, u8 ▸ n5, n1⟩
  · rw [u3]; exact h9

theorem clientTimeout_unchanged (s : RQState) :
    (clientTimeout s).question = s.question ∧
    (clientTimeout s).upstream = s.upstream ∧
    (clientTimeout s).cname_count = s.cname_count ∧
    (clientTimeout s).retries = s.retries ∧
    (clientTimeout s).retryCount = s.retryCount ∧
    (clientTimeout s).stepSends = s.stepSends ∧
    (clientTimeout s).fetches = s.fetches ∧
    (clientTimeout s).queries_out = s.queries_out ∧
    (clientTimeout s).assertFailed = s.assertFailed := by
  simp only [clientTimeout]
  split_ifs <;>
    simp [stop_unchanged, signalSuccess, makeSERVFAIL, addTrace]

theorem clientTimeout_sent (s : RQState) :
    (clientTimeout s).answer_sent = true := by
  simp only [clientTimeout]
  split_ifs with h1 h2 h2 <;>
    simp_all [stop_sent, signalSuccess, makeSERVFAIL, addTrace] <;>
    revert h1 <;> cases s.answer_sent <;> simp

theorem clientTimeout_sig (s : RQState) :
    sigCount (clientTimeout s) =
      if s.answer_sent = false then sigCount s + 1 else sigCount s := by
  simp only [clientTimeout]
  split_ifs with h1 h2 h2
  · rw [stop_sig]
    simp [h1, sigCount, signalSuccess, makeSERVFAIL, addTrace, Action.isSignal,
      List.filter_append]
  · simp [h1, sigCount, signalSuccess, makeSERVFAIL, addTrace, Action.isSignal,
      List.filter_append]
  · rw [stop_sig]
    simp [h1]
  · simp [h1]

theorem clientTimeout_trace_mono (s : RQState) :
    s.trace <+: (clientTimeout s).trace := by
  simp only [clientTimeout]
  split_ifs with h1 h2 h2
  · refine List.IsPrefix.trans ?_ (stop_trace_mono false _)
    simp [signalSuccess, makeSERVFAIL, addTrace, List.prefix_append]
  · simp [signalSuccess, makeSERVFAIL, addTrace, List.prefix_append]
  · exact stop_trace_mono false s
  · exact List.prefix_refl _

theorem core_clientTimeout {s : RQState} (h : Core s) : Core (clientTimeout s) := by
  obtain ⟨h1, h2, h3, h4, h5, h6, h7, h8, h9⟩ := h
  have core_mid : s.answer_sent = false →
      Core (signalSuccess (makeSERVFAIL { s with answer_sent := true })) := by
    intro hb
    have hs0 := sig_zero_of_not_sent h1 h2 hb
    have hmid1 :
        sigCount (signalSuccess (makeSERVFAIL { s with answer_sent := true })) =
          sigCount s + 1 := by
      rw [sigCount_signalSuccess]; rfl
    refine ⟨?_, ?_, h3, h4, h5, h6, h7, ?_, h9⟩
    · rw [hmid1, hs0]
    · exact ⟨fun _ => by rw [hmid1, hs0], fun _ => rfl⟩
    · intro hd
      have hd2 : s.deleted = true := hd
      obtain ⟨d1, d2, d3⟩ := h8 hd2
      simp [d1] at hb
  simp only [clientTimeout]
  split_ifs with hb hc hc
  · exact core_stop false (core_mid hb)
  · exact core_mid hb
  · exact core_stop false ⟨h1, h2, h3, h4, h5, h6, h7, h8, h9⟩
  · exact ⟨h1, h2, h3, h4, h5, h6, h7, h8, h9⟩

theorem send_unchanged (env : Env) (s : RQState) :
    (send env s).question = s.question ∧
    (send env s).upstream = s.upstream ∧
    (send env s).cname_count = s.cname_count ∧
    (send env s).retries = s.retries ∧
    (send env s).retryCount = s.retryCount ∧
    (send env s).stepSends = s.stepSends ∧
    (send env s).done = s.done ∧
    (send env s).answer_sent = s.answer_sent ∧
    (send env s).deleted = s.deleted ∧
    (send env s).answer = s.answer ∧
    (send env s).cache = s.cache ∧
    (send env s).client_timer = s.client_timer ∧
    (send env s).lookup_timer = s.lookup_timer ∧
    (send env s).client_timer_canceled = s.client_timer_canceled := by
  simp only [send]
  split_ifs <;> simp [addTrace]

theorem send_sig (env : Env) (s : RQState) :
    sigCount (send env s) = sigCount s := by
  simp only [send]
  split_ifs
  · rw [sigCount_addTrace]; simp [Action.isSignal, flagBit]; rfl
  · rfl
  · rw [sigCount_addTrace]; simp [Action.isSignal, flagBit]; rfl

theorem send_trace_mono (env : Env) (s : RQState) :
    s.trace <+: (send env s).trace := by
  simp only [send]
  split_ifs <;> simp [addTrace, List.prefix_append]

theorem send_qo (env : Env) (s : RQState) :
    (send env s).queries_out ≤ s.queries_out + 1 := by
  simp only [send]
  split_ifs <;> simp [addTrace]

theorem core_send (env : Env) {s : RQState} (h : Core s)
    (hflag : s.nsas_callback_out = false) (hq : s.queries_out = 0)
    (hdel : s.deleted = false)
    (hbudget : s.fetches + 1 ≤ s.stepSends + s.retryCount) :
    Core (send env s) := by
  obtain ⟨h1, h2, h3, h4, h5, h6, h7, h8, h9⟩ := h
  have hsig := send_sig env s
  obtain ⟨u1, u2, u3, u4, u5, u6, u7, u8, u9, u10, u11, u12, u13, u14⟩ :=
    send_unchanged env s
  refine ⟨?_, ?_, ?_, ?_, ?_, ?_, ?_, ?_, ?_⟩
  · rw [hsig]; exact h1
  · rw [hsig, u8]; exact h2
  · simp only [send]; split_ifs with huc hn
    · simpa [addTrace] using h3
    · rw [hflag] at hn; cases hn
    · simpa [addTrace] using h3
  · simp only [send]; split_ifs with huc hn
    · simpa [addTrace, hflag, flagBit] using h4
    · rw [hflag] at hn; cases hn
    · simp only [addTrace]
      rw [hflag] at h4; simp [flagBit] at h4
      simp [flagBit, h4]
  · simp only [send]; split_ifs with huc hn
    · simp only [addTrace]
      simp [flagBit, hflag]; omega
    · rw [hflag] at hn; cases hn
    · simp only [addTrace]; simp [flagBit]; omega
  · simp only [send]; split_ifs with huc hn
    · simp [addTrace, hq]
    · rw [hflag] at hn; cases hn
    · simp [addTrace, hq]
  · simp only [send]; split_ifs with huc hn
    · intro hf; simp [addTrace] at hf; simp [hf] at hflag
    · rw [hflag] at hn; cases hn
    · intro hf; simp [addTrace, hq]
  · intro hd; rw [u9, hdel] at hd; cases hd
  · rw [u3]; exact h9

theorem sendTo_unchanged (addr : Name) (now : Timeval) (s : RQState) :
    (sendTo addr now s).question = s.question ∧
    (sendTo addr now s).upstream = s.upstream ∧
    (sendTo addr now s).cname_count = s.cname_count ∧
    (sendTo addr now s).retries = s.retries ∧
    (sendTo addr now s).retryCount = s.retryCount ∧
    (sendTo addr now s).stepSends = s.stepSends ∧
    (sendTo addr now s).done = s.done ∧
    (sendTo addr now s).answer_sent = s.answer_sent ∧
    (sendTo addr now s).deleted = s.deleted ∧
    (sendTo addr now s).nsas_callback_out = s.nsas_callback_out ∧
    (sendTo addr now s).nsasOut = s.nsasOut ∧
    (sendTo addr now s).assertFailed = s.assertFailed := by
  simp [sendTo, addTrace]

theorem sendTo_sig (addr : Name) (now : Timeval) (s : RQState) :
    sigCount (sendTo addr now s) = sigCount s := by
  simp only [sendTo]
  rw [sigCount_addTrace]; simp [Action.isSignal, flagBit]; rfl

theorem sendTo_trace_mono (addr : Name) (now : Timeval) (s : RQState) :
    s.trace <+: (sendTo addr now s).trace := by
  simp [sendTo, addTrace, List.prefix_append]

theorem core_sendTo (addr : Name) (now : Timeval) {s : RQState} (h : Core s)
    (hflag : s.nsas_callback_out = false) (hq : s.queries_out = 0)
    (hdel : s.deleted = false)
    (hbudget : s.fetches + 1 ≤ s.stepSends + s.retryCount) :
    Core (sendTo addr now s) := by
  obtain ⟨h1, h2, h3, h4, h5, h6, h7, h8, h9⟩ := h
  obtain ⟨u1, u2, u3, u4, u5, u6, u7, u8, u9, u10, u11, u12⟩ :=
    sendTo_unchanged addr now s
  refine ⟨?_, ?_, ?_, ?_, ?_, ?_, ?_, ?_, ?_⟩
  · rw [sendTo_sig]; exact h1
  · rw [sendTo_sig, u8]; exact h2
  · rw [u12]; exact h3
  · rw [u11, u10]; exact h4
  · rw [u10]
    have : (sendTo addr now s).fetches = s.fetches + 1 := by
      simp [sendTo, addTrace]
    rw [this, u6, u5, hflag]
    simpa [flagBit] using hbudget
  · have : (sendTo addr now s).queries_out = s.queries_out + 1 := by
      simp [sendTo, addTrace]
    rw [this, hq]
  · intro hf; rw [u10] at hf; simp [hf] at hflag
  · intro hd; rw [u9, hdel] at hd; cases hd
  · rw [u3]; exact h9

theorem core_addTrace (a : Action) {s : RQState} (h : Core s)
    (ha : a.isSignal = false) : Core (addTrace a s) := by
  obtain ⟨h1, h2, h3, h4, h5, h6, h7, h8, h9⟩ := h
  have hs : sigCount (addTrace a s) = sigCount s := by
    rw [sigCount_addTrace, ha]; simp [flagBit]
  exact ⟨by rw [hs]; exact h1, by rw [hs]; exact h2, h3, h4, h5, h6, h7, h8, h9⟩

theorem core_makeSERVFAIL {s : RQState} (h : Core s) : Core (makeSERVFAIL s) := by
  obtain ⟨h1, h2, h3, h4, h5, h6, h7, h8, h9⟩ := h
  exact ⟨h1, h2, h3, h4, h5, h6, h7, h8, h9⟩

theorem core_cacheInsert (m : Msg) {s : RQState} (h : Core s) :
    Core (cacheInsert m s) := by
  obtain ⟨h1, h2, h3, h4, h5, h6, h7, h8, h9⟩ := h
  have hs : sigCount (cacheInsert m s) = sigCount s := sigCount_cacheInsert m s
  exact ⟨by rw [hs]; exact h1, by rw [hs]; exact h2, h3, h4, h5, h6, h7, h8, h9⟩

theorem cacheInsert_trace_mono (m : Msg) (s : RQState) :
    s.trace <+: (cacheInsert m s).trace := by
  simp [cacheInsert, addTrace, List.prefix_append]

theorem core_nsasCallbackCalled {s : RQState} (h : Core s)
    (hf : s.nsas_callback_out = true) : Core (nsasCallbackCalled s) := by
  obtain ⟨h1, h2, h3, h4, h5, h6, h7, h8, h9⟩ := h
  rw [hf] at h4 h5; simp [flagBit] at h4 h5
  refine ⟨h1, h2, h3, ?_, ?_, h6, ?_, ?_, h9⟩
  · simp [nsasCallbackCalled, flagBit, h4]
  · simp [nsasCallbackCalled, flagBit]; omega
  · intro hh; simp [nsasCallbackCalled] at hh
  · intro hd
    have hd2 : s.deleted = true := hd
    obtain ⟨d1, d2, d3⟩ := h8 hd2
    exact ⟨d1, d2, rfl⟩

theorem hRA_eq_answer (env : Env) (incoming : Msg) (s : RQState)
    (hx : (env.classify s.question incoming).1 = Category.ANSWER) :
    handleRecursiveAnswer env incoming s =
      (true, { cacheInsert incoming s with
        answer := copyResponseMessage incoming (cacheInsert incoming s).answer }) := by
  rw [handleRecursiveAnswer.eq_def, hx]

theorem hRA_eq_answercname (env : Env) (incoming : Msg) (s : RQState)
    (hx : (env.classify s.question incoming).1 = Category.ANSWERCNAME) :
    handleRecursiveAnswer env incoming s =
      (true, { cacheInsert incoming s with
        answer := copyResponseMessage incoming (cacheInsert incoming s).answer }) := by
  rw [handleRecursiveAnswer.eq_def, hx]

theorem hRA_eq_cname_max (env : Env) (incoming : Msg) (s : RQState)
    (hx : (env.classify s.question incoming).1 = Category.CNAME)
    (hcn : MAX_CNAME_CHAIN ≤ s.cname_count + 1) :
    handleRecursiveAnswer env incoming s =
      (true, makeSERVFAIL
        { cacheInsert incoming s with cname_count := s.cname_count + 1 }) := by
  rw [handleRecursiveAnswer.eq_def, hx]
  rw [dif_pos hcn]

theorem hRA_eq_cname_cont (env : Env) (incoming : Msg) (s : RQState)
    (hx : (env.classify s.question incoming).1 = Category.CNAME)
    (hcn : ¬ MAX_CNAME_CHAIN ≤ s.cname_count + 1) :
    handleRecursiveAnswer env incoming s =
      (false, doLookup env
        (cnameRebind (env.classify s.question incoming).2 incoming
          (cacheInsert incoming s))) := by
  rw [handleRecursiveAnswer.eq_def, hx]
  rw [dif_neg hcn]
  simp only [doLookup]
  cases hm : (cnameRebind (env.classify s.question incoming).2 incoming
      (cacheInsert incoming s)).cache.lookupMsg
      (cnameRebind (env.classify s.question incoming).2 incoming
        (cacheInsert incoming s)).question <;>
    simp [hm]

theorem hRA_eq_nxdomain (env : Env) (incoming : Msg) (s : RQState)
    (hx : (env.classify s.question incoming).1 = Category.NXDOMAIN) :
    handleRecursiveAnswer env incoming s =
      (true, { s with answer := copyResponseMessage incoming s.answer }) := by
  rw [handleRecursiveAnswer.eq_def, hx]

theorem hRA_eq_nxrrset (env : Env) (incoming : Msg) (s : RQState)
    (hx : (env.classify s.question incoming).1 = Category.NXRRSET) :
    handleRecursiveAnswer env incoming s =
      (true, { s with answer := copyResponseMessage incoming s.answer }) := by
  rw [handleRecursiveAnswer.eq_def, hx]

theorem hRA_eq_referral_found (env : Env) (incoming : Msg) (s : RQState)
    (zone : Name)
    (hx : (env.classify s.question incoming).1 = Category.REFERRAL)
    (hz : findNSZone incoming.authority = some zone) :
    handleRecursiveAnswer env incoming s =
      (false, send env
        { cacheInsert incoming s with
          cur_zone := zone,
          stepSends := (cacheInsert incoming s).stepSends + 1 }) := by
  rw [handleRecursiveAnswer.eq_def, hx]
  simp [hz]

theorem hRA_eq_referral_none (env : Env) (incoming : Msg) (s : RQState)
    (hx : (env.classify s.question incoming).1 = Category.REFERRAL)
    (hz : findNSZone incoming.authority = none) :
    handleRecursiveAnswer env incoming s =
      (true, { cacheInsert incoming s with
        answer := copyResponseMessage incoming (cacheInsert incoming s).answer }) := by
  rw [handleRecursiveAnswer.eq_def, hx]
  simp [hz]

theorem hRA_eq_error (env : Env) (incoming : Msg) (s : RQState)
    (hx : ((env.classify s.question incoming).1).isError = true) :
    handleRecursiveAnswer env incoming s = (true, makeSERVFAIL s) := by
  rw [handleRecursiveAnswer.eq_def]
  cases hcat : (env.classify s.question incoming).1 <;>
    simp_all [Category.isError]

theorem sigCount_eq_of_trace {s t : RQState} (h : s.trace = t.trace) :
    sigCount s = sigCount t := by
  simp [sigCount, h]

theorem hRA_basic (env : Env) (incoming : Msg) (s : RQState) :
    s.trace <+: (handleRecursiveAnswer env incoming s).2.trace ∧
    s.cname_count ≤ (handleRecursiveAnswer env incoming s).2.cname_count ∧
    (handleRecursiveAnswer env incoming s).2.retries = s.retries ∧
    (handleRecursiveAnswer env incoming s).2.retryCount = s.retryCount ∧
    (handleRecursiveAnswer env incoming s).2.upstream = s.upstream ∧
    (s.answer_sent = true →
      (handleRecursiveAnswer env incoming s).2.answer_sent = true ∧
      sigCount (handleRecursiveAnswer env incoming s).2 = sigCount s) := by
  induction incoming, s using handleRecursiveAnswer.induct env with
  | case1 incoming s hx =>
    rw [hRA_eq_answer env incoming s hx]
    exact ⟨cacheInsert_trace_mono incoming s, le_rfl, rfl, rfl, rfl,
      fun hs => ⟨hs,
        (sigCount_eq_of_trace rfl).trans (sigCount_cacheInsert incoming s)⟩⟩
  | case2 incoming s hx =>
    rw [hRA_eq_answercname env incoming s hx]
    exact ⟨cacheInsert_trace_mono incoming s, le_rfl, rfl, rfl, rfl,
      fun hs => ⟨hs,
        (sigCount_eq_of_trace rfl).trans (sigCount_cacheInsert incoming s)⟩⟩
  | case3 incoming s hx hcn =>
    rw [hRA_eq_cname_max env incoming s hx hcn]
    exact ⟨cacheInsert_trace_mono incoming s, Nat.le_succ _, rfl, rfl, rfl,
      fun hs => ⟨hs,
        (sigCount_eq_of_trace rfl).trans (sigCount_cacheInsert incoming s)⟩⟩
  | case4 incoming s hx hcn s3 m hm ih =>
    have hs3 : s3 = cnameRebind (env.classify s.question incoming).2 incoming
        (cacheInsert incoming s) := rfl
    rw [hs3] at hm ih
    rw [hRA_eq_cname_cont env incoming s hx hcn]
    simp only [doLookup]
    simp only [hm]
    obtain ⟨i1, i2, i3, i4, i5, i6⟩ := ih
    by_cases hr : (handleRecursiveAnswer env m
        (cnameRebind (env.classify s.question incoming).2 incoming
          (cacheInsert incoming s))).1 = true
    · rw [if_pos hr]
      obtain ⟨w1, w2, w3, w4, w5, w6, w7, w8, w9, w10⟩ := stop_unchanged true
        (handleRecursiveAnswer env m
          (cnameRebind (env.classify s.question incoming).2 incoming
            (cacheInsert incoming s))).2
      refine ⟨?_, ?_, ?_, ?_, ?_, ?_⟩
      · exact ((cacheInsert_trace_mono incoming s).trans i1).trans
          (stop_trace_mono true _)
      · rw [w3]; exact le_trans (Nat.le_succ _) i2
      · rw [w4, i3]; rfl
      · rw [w5, i4]; rfl
      · rw [(stop_unchanged true _).2.1, i5]; rfl
      · intro hsent
        obtain ⟨a1, a2⟩ := i6 hsent
        refine ⟨stop_sent true _, ?_⟩
        rw [stop_sig]
        rw [a1]
        simp only [Bool.true_eq_false, if_false]
        rw [a2]
        exact (sigCount_eq_of_trace rfl).trans (sigCount_cacheInsert incoming s)
    · rw [if_neg hr]
      refine ⟨?_, ?_, ?_, ?_, ?_, ?_⟩
      · exact (cacheInsert_trace_mono incoming s).trans i1
      · exact le_trans (Nat.le_succ _) i2
      · rw [i3]; rfl
      · rw [i4]; rfl
      · rw [i5]; rfl
      · intro hsent
        obtain ⟨a1, a2⟩ := i6 hsent
        refine ⟨a1, ?_⟩
        rw [a2]
        exact (sigCount_eq_of_trace rfl).trans (sigCount_cacheInsert incoming s)
  | case5 incoming s hx hcn s3 hm =>
    have hs3 : s3 = cnameRebind (env.classify s.question incoming).2 incoming
        (cacheInsert incoming s) := rfl
    rw [hs3] at hm
    rw [hRA_eq_cname_cont env incoming s hx hcn]
    simp only [doLookup]
    simp only [hm]
    obtain ⟨w1, w2, w3, w4, w5, w6, w7, w8, w9, w10, w11, w12, w13, w14⟩ :=
      send_unchanged env
        { cnameRebind (env.classify s.question incoming).2 incoming
            (cacheInsert incoming s) with
          cur_zone := ".",
          stepSends := (cnameRebind (env.classify s.question incoming).2 incoming
            (cacheInsert incoming s)).stepSends + 1 }
    refine ⟨?_, ?_, ?_, ?_, ?_, ?_⟩
    · refine List.IsPrefix.trans ?_ (send_trace_mono env _)
      exact cacheInsert_trace_mono incoming s
    · rw [w3]; exact Nat.le_succ _
    · rw [w4]; rfl
    · rw [w5]; rfl
    · rw [w2]; rfl
    · intro hsent
      refine ⟨by rw [w8]; exact hsent, ?_⟩
      rw [send_sig]
      exact (sigCount_eq_of_trace rfl).trans (sigCount_cacheInsert incoming s)
  | case6 incoming s hx =>
    rw [hRA_eq_nxdomain env incoming s hx]
    exact ⟨List.prefix_refl _, le_rfl, rfl, rfl, rfl, fun hs => ⟨hs, rfl⟩⟩
  | case7 incoming s hx =>
    rw [hRA_eq_nxrrset env incoming s hx]
    exact ⟨List.prefix_refl _, le_rfl, rfl, rfl, rfl, fun hs => ⟨hs, rfl⟩⟩
  | case8 incoming s hx zone hz =>
    rw [hRA_eq_referral_found env incoming s zone hx hz]
    obtain ⟨w1, w2, w3, w4, w5, w6, w7, w8, w9, w10, w11, w12, w13, w14⟩ :=
      send_unchanged env
        { cacheInsert incoming s with
          cur_zone := zone,
          stepSends := (cacheInsert incoming s).stepSends + 1 }
    refine ⟨?_, ?_, ?_, ?_, ?_, ?_⟩
    · refine List.IsPrefix.trans ?_ (send_trace_mono env _)
      exact cacheInsert_trace_mono incoming s
    · rw [w3]; exact le_rfl
    · rw [w4]; rfl
    · rw [w5]; rfl
    · rw [w2]; rfl
    · intro hsent
      refine ⟨by rw [w8]; exact hsent, ?_⟩
      rw [send_sig]
      exact (sigCount_eq_of_trace rfl).trans (sigCount_cacheInsert incoming s)
  | case9 incoming s hx hz =>
    rw [hRA_eq_referral_none env incoming s hx hz]
    exact ⟨cacheInsert_trace_mono incoming s, le_rfl, rfl, rfl, rfl,
      fun hs => ⟨hs,
        (sigCount_eq_of_trace rfl).trans (sigCount_cacheInsert incoming s)⟩⟩
  | case10 incoming s hx1 hx2 hx3 hx4 hx5 hx6 =>
    have herr : ((env.classify s.question incoming).1).isError = true := by
      cases hcat : (env.classify s.question incoming).1 <;>
        simp_all [Category.isError]
    rw [hRA_eq_error env incoming s herr]
    exact ⟨List.prefix_refl _, le_rfl, rfl, rfl, rfl, fun hs => ⟨hs, rfl⟩⟩

theorem stop_flag_false (b : Bool) {s : RQState}
    (h : s.nsas_callback_out = false) :
    (stop b s).nsas_callback_out = false := by
  rcases stop_nsas b s with ⟨n1, n2, n3⟩ | ⟨n1, n2, n3, n4, n5⟩
  · rw [n1]; exact h
  · exact n1

theorem hRA_spec (env : Env) (incoming : Msg) (s : RQState) :
    Core s → s.queries_out = 0 → s.nsas_callback_out = false →
    s.deleted = false → s.cname_count + 1 ≤ MAX_CNAME_CHAIN →
    Core (handleRecursiveAnswer env incoming s).2 ∧
    ((handleRecursiveAnswer env incoming s).1 = true →
      (handleRecursiveAnswer env incoming s).2.queries_out = 0 ∧
      (handleRecursiveAnswer env incoming s).2.nsas_callback_out = false) ∧
    ((handleRecursiveAnswer env incoming s).1 = false →
      (handleRecursiveAnswer env incoming s).2.cname_count = MAX_CNAME_CHAIN →
      (handleRecursiveAnswer env incoming s).2.queries_out = 0 ∧
      (handleRecursiveAnswer env incoming s).2.nsas_callback_out = false) := by
  induction incoming, s using handleRecursiveAnswer.induct env with
  | case1 incoming s hx =>
    intro hc hq hflag hdel hcn
    rw [hRA_eq_answer env incoming s hx]
    obtain ⟨c1, c2, c3, c4, c5, c6, c7, c8, c9⟩ := core_cacheInsert incoming hc
    exact ⟨⟨c1, c2, c3, c4, c5, c6, c7, c8, c9⟩,
      fun _ => ⟨hq, hflag⟩, fun _ _ => ⟨hq, hflag⟩⟩
  | case2 incoming s hx =>
    intro hc hq hflag hdel hcn
    rw [hRA_eq_answercname env incoming s hx]
    obtain ⟨c1, c2, c3, c4, c5, c6, c7, c8, c9⟩ := core_cacheInsert incoming hc
    exact ⟨⟨c1, c2, c3, c4, c5, c6, c7, c8, c9⟩,
      fun _ => ⟨hq, hflag⟩, fun _ _ => ⟨hq, hflag⟩⟩
  | case3 incoming s hx hguard =>
    intro hc hq hflag hdel hcn
    rw [hRA_eq_cname_max env incoming s hx hguard]
    obtain ⟨c1, c2, c3, c4, c5, c6, c7, c8, c9⟩ := core_cacheInsert incoming hc
    exact ⟨⟨c1, c2, c3, c4, c5, c6, c7, c8, hcn⟩,
      fun _ => ⟨hq, hflag⟩, fun _ _ => ⟨hq, hflag⟩⟩
  | case4 incoming s hx hguard s3 m hm ih =>
    intro hc hq hflag hdel hcn
    have hs3 : s3 = cnameRebind (env.classify s.question incoming).2 incoming
        (cacheInsert incoming s) := rfl
    rw [hs3] at hm ih
    rw [hRA_eq_cname_cont env incoming s hx hguard]
    simp only [doLookup]
    simp only [hm]
    obtain ⟨c1, c2, c3, c4, c5, c6, c7, c8, c9⟩ := core_cacheInsert incoming hc
    have hcore3 : Core (cnameRebind (env.classify s.question incoming).2 incoming
        (cacheInsert incoming s)) := by
      refine ⟨c1, c2, c3, c4, c5, c6, c7, c8, ?_⟩
      show s.cname_count + 1 ≤ MAX_CNAME_CHAIN
      omega
    obtain ⟨r1, r2, r3⟩ := ih hcore3 hq hflag hdel (by
      show s.cname_count + 1 + 1 ≤ MAX_CNAME_CHAIN
      omega)
    by_cases hr : (handleRecursiveAnswer env m
        (cnameRebind (env.classify s.question incoming).2 incoming
          (cacheInsert incoming s))).1 = true
    · rw [if_pos hr]
      obtain ⟨f1, f2⟩ := r2 hr
      refine ⟨core_stop true r1, fun hh => Bool.noConfusion hh, ?_⟩
      intro _ _
      constructor
      · rw [(stop_unchanged true _).2.2.2.2.2.2.2.1]; exact f1
      · exact stop_flag_false true f2
    · rw [if_neg hr]
      have hrf : (handleRecursiveAnswer env m
          (cnameRebind (env.classify s.question incoming).2 incoming
            (cacheInsert incoming s))).1 = false := by
        revert hr; cases (handleRecursiveAnswer env m
          (cnameRebind (env.classify s.question incoming).2 incoming
            (cacheInsert incoming s))).1 <;> simp
      exact ⟨r1, fun hh => Bool.noConfusion hh, fun _ hmax => r3 hrf hmax⟩
  | case5 incoming s hx hguard s3 hm =>
    intro hc hq hflag hdel hcn
    have hs3 : s3 = cnameRebind (env.classify s.question incoming).2 incoming
        (cacheInsert incoming s) := rfl
    rw [hs3] at hm
    rw [hRA_eq_cname_cont env incoming s hx hguard]
    simp only [doLookup]
    simp only [hm]
    obtain ⟨c1, c2, c3, c4, c5, c6, c7, c8, c9⟩ := core_cacheInsert incoming hc
    have c5b : s.fetches ≤ s.stepSends + s.retryCount := by
      have hfl := hc.fetch_le
      rw [hflag] at hfl
      simpa [flagBit] using hfl
    have hcoreZ : Core { cnameRebind (env.classify s.question incoming).2 incoming
        (cacheInsert incoming s) with
        cur_zone := ".",
        stepSends := (cnameRebind (env.classify s.question incoming).2 incoming
          (cacheInsert incoming s)).stepSends + 1 } := by
      refine ⟨c1, c2, c3, c4, ?_, c6, c7, c8, ?_⟩
      · show s.fetches + flagBit s.nsas_callback_out ≤
          s.stepSends + 1 + s.retryCount
        rw [hflag]
        simp [flagBit]
        omega
      · show s.cname_count + 1 ≤ MAX_CNAME_CHAIN
        omega
    have hsend := core_send env hcoreZ hflag hq hdel (by
      show s.fetches + 1 ≤ s.stepSends + 1 + s.retryCount
      omega)
    refine ⟨hsend, fun hh => Bool.noConfusion hh, ?_⟩
    intro _ hmax
    rw [(send_unchanged env _).2.2.1] at hmax
    have hmax2 : s.cname_count + 1 = MAX_CNAME_CHAIN := hmax
    omega
  | case6 incoming s hx =>
    intro hc hq hflag hdel hcn
    rw [hRA_eq_nxdomain env incoming s hx]
    obtain ⟨c1, c2, c3, c4, c5, c6, c7, c8, c9⟩ := hc
    exact ⟨⟨c1, c2, c3, c4, c5, c6, c7, c8, c9⟩,
      fun _ => ⟨hq, hflag⟩, fun _ _ => ⟨hq, hflag⟩⟩
  | case7 incoming s hx =>
    intro hc hq hflag hdel hcn
    rw [hRA_eq_nxrrset env incoming s hx]
    obtain ⟨c1, c2, c3, c4, c5, c6, c7, c8, c9⟩ := hc
    exact ⟨⟨c1, c2, c3, c4, c5, c6, c7, c8, c9⟩,
      fun _ => ⟨hq, hflag⟩, fun _ _ => ⟨hq, hflag⟩⟩
  | case8 incoming s hx zone hz =>
    intro hc hq hflag hdel hcn
    rw [hRA_eq_referral_found env incoming s zone hx hz]
    obtain ⟨c1, c2, c3, c4, c5, c6, c7, c8, c9⟩ := core_cacheInsert incoming hc
    have c5b : s.fetches ≤ s.stepSends + s.retryCount := by
      have hfl := hc.fetch_le
      rw [hflag] at hfl
      simpa [flagBit] using hfl
    have hcoreY : Core { cacheInsert incoming s with
        cur_zone := zone,
        stepSends := (cacheInsert incoming s).stepSends + 1 } := by
      refine ⟨c1, c2, c3, c4, ?_, c6, c7, c8, c9⟩
      show s.fetches + flagBit s.nsas_callback_out ≤
        s.stepSends + 1 + s.retryCount
      rw [hflag]
      simp [flagBit]
      omega
    have hsend := core_send env hcoreY hflag hq hdel (by
      show s.fetches + 1 ≤ s.stepSends + 1 + s.retryCount
      omega)
    refine ⟨hsend, fun hh => Bool.noConfusion hh, ?_⟩
    intro _ hmax
    rw [(send_unchanged env _).2.2.1] at hmax
    have hmax2 : s.cname_count = MAX_CNAME_CHAIN := hmax
    omega
  | case9 incoming s hx hz =>
    intro hc hq hflag hdel hcn
    rw [hRA_eq_referral_none env incoming s hx hz]
    obtain ⟨c1, c2, c3, c4, c5, c6, c7, c8, c9⟩ := core_cacheInsert incoming hc
    exact ⟨⟨c1, c2, c3, c4, c5, c6, c7, c8, c9⟩,
      fun _ => ⟨hq, hflag⟩, fun _ _ => ⟨hq, hflag⟩⟩
  | case10 incoming s hx1 hx2 hx3 hx4 hx5 hx6 =>
    intro hc hq hflag hdel hcn
    have herr : ((env.classify s.question incoming).1).isError = true := by
      cases hcat : (env.classify s.question incoming).1 <;>
        simp_all [Category.isError]
    rw [hRA_eq_error env incoming s herr]
    exact ⟨core_makeSERVFAIL hc, fun _ => ⟨hq, hflag⟩, fun _ _ => ⟨hq, hflag⟩⟩

theorem doLookup_spec (env : Env) (s : RQState)
    (hc : Core s) (hq : s.queries_out = 0) (hflag : s.nsas_callback_out = false)
    (hdel : s.deleted = false) (hcn : s.cname_count + 1 ≤ MAX_CNAME_CHAIN) :
    Core (doLookup env s) ∧
    ((doLookup env s).cname_count = MAX_CNAME_CHAIN →
      (doLookup env s).done = true ∨
        ((doLookup env s).queries_out = 0 ∧
          (doLookup env s).nsas_callback_out = false)) ∧
    (doLookup env s).retries = s.retries ∧
    (doLookup env s).retryCount = s.retryCount ∧
    (doLookup env s).upstream = s.upstream ∧
    (s.answer_sent = true → (doLookup env s).answer_sent = true ∧
      sigCount (doLookup env s) = sigCount s) ∧
    s.trace <+: (doLookup env s).trace := by
  simp only [doLookup]
  cases hm : s.cache.lookupMsg s.question with
  | some m =>
    simp only [hm]
    obtain ⟨r1, r2, r3⟩ := hRA_spec env m s hc hq hflag hdel hcn
    obtain ⟨b1, b2, b3, b4, b5, b6⟩ := hRA_basic env m s
    by_cases hr : (handleRecursiveAnswer env m s).1 = true
    · rw [if_pos hr]
      obtain ⟨u1, u2, u3, u4, u5, u6, u7, u8, u9, u10⟩ :=
        stop_unchanged true (handleRecursiveAnswer env m s).2
      refine ⟨core_stop true r1, ?_, ?_, ?_, ?_, ?_, ?_⟩
      · intro _; left; exact stop_done true _
      · rw [u4]; exact b3
      · rw [u5]; exact b4
      · rw [(stop_unchanged true _).2.1]; exact b5
      · intro hsent
        obtain ⟨a1, a2⟩ := b6 hsent
        refine ⟨stop_sent true _, ?_⟩
        rw [stop_sig, a1]
        simp only [Bool.true_eq_false, if_false]
        exact a2
      · exact b1.trans (stop_trace_mono true _)
    · rw [if_neg hr]
      have hrf : (handleRecursiveAnswer env m s).1 = false := by
        revert hr; cases (handleRecursiveAnswer env m s).1 <;> simp
      refine ⟨r1, ?_, b3, b4, b5, b6, b1⟩
      intro hmax; right; exact r3 hrf hmax
  | none =>
    simp only [hm]
    have c5b : s.fetches ≤ s.stepSends + s.retryCount := by
      have hfl := hc.fetch_le
      rw [hflag] at hfl
      simpa [flagBit] using hfl
    obtain ⟨c1, c2, c3, c4, c5, c6, c7, c8, c9⟩ := hc
    have hcoreZ : Core { s with cur_zone := ".", stepSends := s.stepSends + 1 } := by
      refine ⟨c1, c2, c3, c4, ?_, c6, c7, c8, c9⟩
      show s.fetches + flagBit s.nsas_callback_out ≤ s.stepSends + 1 + s.retryCount
      rw [hflag]
      simp [flagBit]
      omega
    have hsend := core_send env hcoreZ hflag hq hdel (by
      show s.fetches + 1 ≤ s.stepSends + 1 + s.retryCount
      omega)
    obtain ⟨w1, w2, w3, w4, w5, w6, w7, w8, w9, w10, w11, w12, w13, w14⟩ :=
      send_unchanged env { s with cur_zone := ".", stepSends := s.stepSends + 1 }
    refine ⟨hsend, ?_, ?_, ?_, ?_, ?_, ?_⟩
    · intro hmax
      rw [w3] at hmax
      have hmax2 : s.cname_count = MAX_CNAME_CHAIN := hmax
      omega
    · rw [w4]
    · rw [w5]
    · rw [w2]
    · intro hsent
      exact ⟨by rw [w8]; exact hsent, send_sig env _⟩
    · exact send_trace_mono env
        { s with cur_zone := ".", stepSends := s.stepSends + 1 }

theorem inv_stop (b : Bool) {r0 : Nat} {s : RQState} (h : Inv r0 s) :
    Inv r0 (stop b s) := by
  refine ⟨core_stop b h.toCore, ?_, ?_, ?_⟩
  · intro _; exact Or.inl (stop_done b s)
  · intro hdf; rw [stop_done b s] at hdf; exact Bool.noConfusion hdf
  · rw [(stop_unchanged b s).2.2.2.2.1]; exact h.retr_le

theorem inv_addTrace (a : Action) {r0 : Nat} {s : RQState} (h : Inv r0 s)
    (ha : a.isSignal = false) : Inv r0 (addTrace a s) :=
  ⟨core_addTrace a h.toCore ha, h.cname_max, h.retr_eq, h.retr_le⟩

theorem inv_makeSERVFAIL {r0 : Nat} {s : RQState} (h : Inv r0 s) :
    Inv r0 (makeSERVFAIL s) :=
  ⟨core_makeSERVFAIL h.toCore, h.cname_max, h.retr_eq, h.retr_le⟩

theorem inv_stop_of_core (b : Bool) {r0 : Nat} {t : RQState} (hct : Core t)
    (hrlt : t.retryCount ≤ r0) : Inv r0 (stop b t) := by
  refine ⟨core_stop b hct, fun _ => Or.inl (stop_done b t), ?_, ?_⟩
  · intro hdf; rw [stop_done b t] at hdf; exact Bool.noConfusion hdf
  · rw [(stop_unchanged b t).2.2.2.2.1]; exact hrlt

theorem inv_giveUp {r0 : Nat} {s : RQState} (hc : Core s)
    (hrl : s.retryCount ≤ r0) : Inv r0 (giveUp s) := by
  simp only [giveUp]
  split_ifs with h1 h2 h2
  · exact inv_stop_of_core _ (core_makeSERVFAIL (core_addTrace _ hc rfl)) hrl
  · exact inv_stop_of_core _ (core_addTrace _ hc rfl) hrl
  · exact inv_stop_of_core _ (core_makeSERVFAIL hc) hrl
  · exact inv_stop_of_core _ hc hrl

theorem core_clientSignal {s : RQState} (h : Core s) (hb : s.answer_sent = false) :
    Core (signalSuccess (makeSERVFAIL { s with answer_sent := true })) := by
  obtain ⟨h1, h2, h3, h4, h5, h6, h7, h8, h9⟩ := h
  have hs0 := sig_zero_of_not_sent h1 h2 hb
  have hmid1 :
      sigCount (signalSuccess (makeSERVFAIL { s with answer_sent := true })) =
        sigCount s + 1 := by
    rw [sigCount_signalSuccess]; rfl
  refine ⟨?_, ?_, h3, h4, h5, h6, h7, ?_, h9⟩
  · rw [hmid1, hs0]
  · exact ⟨fun _ => by rw [hmid1, hs0], fun _ => rfl⟩
  · intro hd
    have hd2 : s.deleted = true := hd
    obtain ⟨d1, d2, d3⟩ := (⟨h1, h2, h3, h4, h5, h6, h7, h8, h9⟩ : Core s).del hd2
    simp [d1] at hb

theorem inv_clientTimeout {r0 : Nat} {s : RQState} (h : Inv r0 s) :
    Inv r0 (clientTimeout s) := by
  simp only [clientTimeout]
  split_ifs with h1 h2 h2
  · exact inv_stop _
      ⟨core_clientSignal h.toCore h1, h.cname_max, h.retr_eq, h.retr_le⟩
  · exact ⟨core_clientSignal h.toCore h1, h.cname_max, h.retr_eq, h.retr_le⟩
  · exact inv_stop _ h
  · exact h

theorem inv_setClientTimer {r0 : Nat} {s : RQState} (h : Inv r0 s) (t : TimerSt) :
    Inv r0 { s with client_timer := t } := by
  obtain ⟨⟨c1, c2, c3, c4, c5, c6, c7, c8, c9⟩, i1, i2, i3⟩ := h
  exact ⟨⟨c1, c2, c3, c4, c5, c6, c7, c8, c9⟩, i1, i2, i3⟩

theorem inv_setLookupTimer {r0 : Nat} {s : RQState} (h : Inv r0 s) (t : TimerSt) :
    Inv r0 { s with lookup_timer := t } := by
  obtain ⟨⟨c1, c2, c3, c4, c5, c6, c7, c8, c9⟩, i1, i2, i3⟩ := h
  exact ⟨⟨c1, c2, c3, c4, c5, c6, c7, c8, c9⟩, i1, i2, i3⟩

theorem inv_nsasCallbackCalled {r0 : Nat} {s : RQState} (h : Inv r0 s)
    (hf : s.nsas_callback_out = true) : Inv r0 (nsasCallbackCalled s) := by
  refine ⟨core_nsasCallbackCalled h.toCore hf, ?_, h.retr_eq, h.retr_le⟩
  intro hmax
  have hmax2 : s.cname_count = MAX_CNAME_CHAIN := hmax
  rcases h.cname_max hmax2 with hd | ⟨hq, hfl⟩
  · exact Or.inl hd
  · rw [hf] at hfl; exact Bool.noConfusion hfl

theorem addTrace_upstream (a : Action) (s : RQState) :
    (addTrace a s).upstream = s.upstream := rfl

theorem inv_handleFetch (env : Env) (res : FetchResult) {r0 : Nat} {s : RQState}
    (h : Inv r0 s) (hdel : s.deleted = false) (hq : 0 < s.queries_out) :
    Inv r0 (handleFetch env res s) := by
  have hflag0 : s.nsas_callback_out = false := by
    by_contra hx
    have hx2 : s.nsas_callback_out = true := by
      revert hx; cases s.nsas_callback_out <;> simp
    have := h.nsas_q hx2
    omega
  have hq1 : s.queries_out = 1 := by
    have := h.q_le
    omega
  obtain ⟨⟨c1, c2, c3, c4, c5, c6, c7, c8, c9⟩, i1, i2, i3⟩ := h
  have hcore1 : Core { s with queries_out := s.queries_out - 1 } := by
    refine ⟨c1, c2, c3, c4, c5, ?_, ?_, ?_, c9⟩
    · show s.queries_out - 1 ≤ 1; omega
    · intro hf
      have hf2 : s.nsas_callback_out = true := hf
      rw [hflag0] at hf2; exact Bool.noConfusion hf2
    · intro hd
      have hd2 : s.deleted = true := hd
      rw [hdel] at hd2; exact Bool.noConfusion hd2
  cases res with
  | success incoming now =>
    simp only [handleFetch]
    by_cases hdone : s.done = false
    · rw [if_pos hdone]
      simp only [RQState.recursiveMode, addTrace_upstream]
      have hcore2 : Core (addTrace (.parsed incoming)
          (addTrace (.rttUpdate s.current_ns_address
            (computeRTT now s.current_ns_qsent_time))
            { s with queries_out := s.queries_out - 1 })) :=
        core_addTrace _ (core_addTrace _ hcore1 rfl) rfl
      have hcnt : s.cname_count + 1 ≤ MAX_CNAME_CHAIN := by
        rcases Nat.lt_or_ge s.cname_count MAX_CNAME_CHAIN with hlt | hge
        · omega
        · have hEq : s.cname_count = MAX_CNAME_CHAIN := by
            have := c9; omega
          rcases i1 hEq with hd | ⟨hq0, _⟩
          · rw [hd] at hdone; exact Bool.noConfusion hdone
          · exfalso; omega
      by_cases hrec : s.upstream.isEmpty = true ∧ incoming.rcode = rcNOERROR
      · rw [if_pos hrec]
        obtain ⟨R1, R2, R3⟩ := hRA_spec env incoming _ hcore2
          (show s.queries_out - 1 = 0 by omega) hflag0 hdel hcnt
        obtain ⟨B1, B2, B3, B4, B5, B6⟩ := hRA_basic env incoming
          (addTrace (.parsed incoming)
            (addTrace (.rttUpdate s.current_ns_address
              (computeRTT now s.current_ns_qsent_time))
              { s with queries_out := s.queries_out - 1 }))
        by_cases hr1 : (handleRecursiveAnswer env incoming
            (addTrace (.parsed incoming)
              (addTrace (.rttUpdate s.current_ns_address
                (computeRTT now s.current_ns_qsent_time))
                { s with queries_out := s.queries_out - 1 }))).1 = true
        · rw [if_pos hr1]
          refine inv_stop true ?_
          obtain ⟨d1, d2, d3, d4, d5, d6, d7, d8, d9⟩ := R1
          refine ⟨⟨d1, d2, d3, d4, d5, d6, d7, d8, d9⟩, ?_, ?_, ?_⟩
          · intro _; exact Or.inl hr1
          · intro hdf
            have hdf3 : (handleRecursiveAnswer env incoming
                (addTrace (.parsed incoming)
                  (addTrace (.rttUpdate s.current_ns_address
                    (computeRTT now s.current_ns_qsent_time))
                    { s with queries_out := s.queries_out - 1 }))).1 = false := hdf
            rw [hr1] at hdf3
            exact Bool.noConfusion hdf3
          · rw [B4]; exact i3
        · rw [if_neg hr1]
          have hr1f : (handleRecursiveAnswer env incoming
              (addTrace (.parsed incoming)
                (addTrace (.rttUpdate s.current_ns_address
                  (computeRTT now s.current_ns_qsent_time))
                  { s with queries_out := s.queries_out - 1 }))).1 = false := by
            revert hr1
            cases (handleRecursiveAnswer env incoming
              (addTrace (.parsed incoming)
                (addTrace (.rttUpdate s.current_ns_address
                  (computeRTT now s.current_ns_qsent_time))
                  { s with queries_out := s.queries_out - 1 }))).1 <;> simp
          obtain ⟨d1, d2, d3, d4, d5, d6, d7, d8, d9⟩ := R1
          refine ⟨⟨d1, d2, d3, d4, d5, d6, d7, d8, d9⟩, ?_, ?_, ?_⟩
          · intro hmax; exact Or.inr (R3 hr1f hmax)
          · intro _
            rw [B3, B4]
            exact i2 hdone
          · rw [B4]; exact i3
      · rw [if_neg hrec]
        refine inv_stop true ?_
        obtain ⟨d1, d2, d3, d4, d5, d6, d7, d8, d9⟩ := hcore2
        refine ⟨⟨d1, d2, d3, d4, d5, d6, d7, d8, d9⟩, ?_, ?_, ?_⟩
        · intro _; exact Or.inl rfl
        · intro hdf; exact Bool.noConfusion hdf
        · exact i3
    · rw [if_neg hdone]
      exact inv_giveUp hcore1 i3
  | timeout =>
    simp only [handleFetch]
    by_cases hdone : s.done = false
    · rw [if_pos hdone]
      simp only [RQState.recursiveMode, addTrace_upstream]
      by_cases hr0 : s.retries ≠ 0
      · rw [if_pos hr0]
        have hr0s : s.retries ≠ 0 := hr0
        have hretr : s.retryCount + s.retries = r0 := i2 hdone
        have hcoreD : Core { s with
            queries_out := s.queries_out - 1,
            retries := if s.retries = 0 then 2 ^ 32 - 1 else s.retries - 1,
            retryCount := s.retryCount + 1 } := by
          refine ⟨c1, c2, c3, c4, ?_, ?_, ?_, ?_, c9⟩
          · show s.fetches + flagBit s.nsas_callback_out ≤
              s.stepSends + (s.retryCount + 1)
            omega
          · show s.queries_out - 1 ≤ 1; omega
          · intro hf
            have hf2 : s.nsas_callback_out = true := hf
            rw [hflag0] at hf2; exact Bool.noConfusion hf2
          · intro hd
            have hd2 : s.deleted = true := hd
            rw [hdel] at hd2; exact Bool.noConfusion hd2
        have hcntne : s.cname_count ≠ MAX_CNAME_CHAIN := by
          intro hEq
          rcases i1 hEq with hd | ⟨hq0, _⟩
          · rw [hd] at hdone; exact Bool.noConfusion hdone
          · omega
        by_cases hrm : s.upstream.isEmpty = true
        · rw [if_pos hrm]
          have hcoreE := core_addTrace
            (.rttUpdate s.current_ns_address UNREACHABLE) hcoreD rfl
          have hsend := core_send env hcoreE hflag0
            (show s.queries_out - 1 = 0 by omega) hdel
            (by show s.fetches + 1 ≤ s.stepSends + (s.retryCount + 1); omega)
          obtain ⟨w1, w2, w3, w4, w5, w6, w7, w8, w9, w10, w11, w12, w13, w14⟩ :=
            send_unchanged env (addTrace
              (.rttUpdate s.current_ns_address UNREACHABLE)
              { s with
                queries_out := s.queries_out - 1,
                retries := if s.retries = 0 then 2 ^ 32 - 1 else s.retries - 1,
                retryCount := s.retryCount + 1 })
          refine ⟨hsend, ?_, ?_, ?_⟩
          · intro hmax
            rw [w3] at hmax
            have hmax2 : s.cname_count = MAX_CNAME_CHAIN := hmax
            exact absurd hmax2 hcntne
          · intro _
            rw [w4, w5]
            show s.retryCount + 1 +
              (if s.retries = 0 then 2 ^ 32 - 1 else s.retries - 1) = r0
            rw [if_neg hr0s]
            omega
          · rw [w5]
            show s.retryCount + 1 ≤ r0
            omega
        · rw [if_neg hrm]
          have hsend := core_send env hcoreD hflag0
            (show s.queries_out - 1 = 0 by omega) hdel
            (by show s.fetches + 1 ≤ s.stepSends + (s.retryCount + 1); omega)
          obtain ⟨w1, w2, w3, w4, w5, w6, w7, w8, w9, w10, w11, w12, w13, w14⟩ :=
            send_unchanged env
              { s with
                queries_out := s.queries_out - 1,
                retries := if s.retries = 0 then 2 ^ 32 - 1 else s.retries - 1,
                retryCount := s.retryCount + 1 }
          refine ⟨hsend, ?_, ?_, ?_⟩
          · intro hmax
            rw [w3] at hmax
            have hmax2 : s.cname_count = MAX_CNAME_CHAIN := hmax
            exact absurd hmax2 hcntne
          · intro _
            rw [w4, w5]
            show s.retryCount + 1 +
              (if s.retries = 0 then 2 ^ 32 - 1 else s.retries - 1) = r0
            rw [if_neg hr0s]
            omega
          · rw [w5]
            show s.retryCount + 1 ≤ r0
            omega
      · rw [if_neg hr0]
        refine inv_giveUp ?_ ?_
        · obtain ⟨d1, d2, d3, d4, d5, d6, d7, d8, d9⟩ := hcore1
          exact ⟨d1, d2, d3, d4, d5, d6, d7, d8, d9⟩
        · exact i3
    · rw [if_neg hdone]
      exact inv_giveUp hcore1 i3

theorem inv_step (env : Env) (e : Event) {r0 : Nat} {s : RQState}
    (h : Inv r0 s) (hcf : canFire s e) : Inv r0 (step env e s) := by
  cases e with
  | udp res => exact inv_handleFetch env res h hcf.1 hcf.2
  | clientFire => exact inv_clientTimeout (inv_setClientTimer h .fired)
  | lookupFire => exact inv_stop false (inv_setLookupTimer h .fired)
  | nsasSuccess addr now =>
    simp only [step]
    have hf : s.nsas_callback_out = true := hcf.2
    have hq0 : s.queries_out = 0 := h.nsas_q hf
    have hbudget : s.fetches + 1 ≤ s.stepSends + s.retryCount := by
      have hfl := h.fetch_le
      rw [hf] at hfl
      simpa [flagBit] using hfl
    have hcoreN := core_nsasCallbackCalled h.toCore hf
    have hcoreS := core_sendTo addr now hcoreN rfl hq0 hcf.1 hbudget
    obtain ⟨u1, u2, u3, u4, u5, u6, u7, u8, u9, u10, u11, u12⟩ :=
      sendTo_unchanged addr now (nsasCallbackCalled s)
    refine ⟨hcoreS, ?_, ?_, ?_⟩
    · intro hmax
      rw [u3] at hmax
      have hmax2 : s.cname_count = MAX_CNAME_CHAIN := hmax
      rcases h.cname_max hmax2 with hd | ⟨_, hfl⟩
      · left; rw [u7]; exact hd
      · rw [hf] at hfl; exact Bool.noConfusion hfl
    · intro hdf
      rw [u7] at hdf
      have hdf2 : s.done = false := hdf
      rw [u5, u4]
      exact h.retr_eq hdf2
    · rw [u5]; exact h.retr_le
  | nsasUnreachable =>
    exact inv_stop false (inv_makeSERVFAIL (inv_nsasCallbackCalled h hcf.2))

theorem inv_init (cfg : Config) (q : Question) (ans : Msg) (cache : Cache) :
    Inv cfg.retries (initialState cfg q ans cache) := by
  refine ⟨⟨?_, ?_, rfl, rfl, ?_, ?_, ?_, ?_, ?_⟩, ?_, ?_, ?_⟩
  · show (List.filter Action.isSignal []).length ≤ 1
    simp
  · show false = true ↔ (List.filter Action.isSignal []).length = 1
    simp
  · show 0 + flagBit false ≤ 0 + 0
    simp [flagBit]
  · show 0 ≤ 1
    omega
  · intro hf; exact Bool.noConfusion hf
  · intro hd; exact Bool.noConfusion hd
  · show 0 ≤ MAX_CNAME_CHAIN
    omega
  · intro hmax
    have hmax2 : (0 : Nat) = MAX_CNAME_CHAIN := hmax
    simp [MAX_CNAME_CHAIN] at hmax2
  · intro _
    show 0 + cfg.retries = cfg.retries
    omega
  · show 0 ≤ cfg.retries
    omega

theorem inv_mk (env : Env) (cfg : Config) (q : Question) (ans : Msg)
    (cache : Cache) : Inv cfg.retries (mkRunningQuery env cfg q ans cache) := by
  have h0 := inv_init cfg q ans cache
  obtain ⟨D1, D2, D3, D4, D5, D6, D7⟩ := doLookup_spec env
    (initialState cfg q ans cache) h0.toCore rfl rfl rfl
    (by show 0 + 1 ≤ MAX_CNAME_CHAIN; decide)
  simp only [mkRunningQuery]
  refine ⟨D1, ?_, ?_, ?_⟩
  · exact D2
  · intro _
    rw [D4, D3]
    exact h0.retr_eq rfl
  · rw [D4]; exact h0.retr_le

theorem inv_reach (env : Env) {s0 s : RQState} {r0 : Nat}
    (hr : Reach env s0 s) (h0 : Inv r0 s0) : Inv r0 s := by
  induction hr with
  | refl => exact h0
  | tail e hr hcf ih => exact inv_step env e ih hcf

theorem giveUp_sent (s : RQState) : (giveUp s).answer_sent = true := by
  simp only [giveUp]
  split_ifs <;> exact stop_sent _ _

theorem giveUp_unchanged (s : RQState) :
    (giveUp s).cname_count = s.cname_count ∧
    (giveUp s).retries = s.retries ∧
    (giveUp s).retryCount = s.retryCount ∧
    (giveUp s).queries_out = s.queries_out ∧
    (giveUp s).upstream = s.upstream := by
  simp only [giveUp]
  split_ifs <;>
    exact ⟨(stop_unchanged _ _).2.2.1, (stop_unchanged _ _).2.2.2.1,
      (stop_unchanged _ _).2.2.2.2.1, (stop_unchanged _ _).2.2.2.2.2.2.2.1,
      (stop_unchanged _ _).2.1⟩

theorem handleFetch_sent_mono (env : Env) (res : FetchResult) {s : RQState}
    (hsent : s.answer_sent = true) :
    (handleFetch env res s).answer_sent = true := by
  cases res with
  | success incoming now =>
    simp only [handleFetch]
    by_cases hdone : s.done = false
    · rw [if_pos hdone]
      simp only [RQState.recursiveMode, addTrace_upstream]
      by_cases hrec : s.upstream.isEmpty = true ∧ incoming.rcode = rcNOERROR
      · rw [if_pos hrec]
        by_cases hr1 : (handleRecursiveAnswer env incoming
            (addTrace (.parsed incoming)
              (addTrace (.rttUpdate s.current_ns_address
                (computeRTT now s.current_ns_qsent_time))
                { s with queries_out := s.queries_out - 1 }))).1 = true
        · rw [if_pos hr1]; exact stop_sent _ _
        · rw [if_neg hr1]
          exact ((hRA_basic env incoming
            (addTrace (.parsed incoming)
              (addTrace (.rttUpdate s.current_ns_address
                (computeRTT now s.current_ns_qsent_time))
                { s with queries_out := s.queries_out - 1 }))).2.2.2.2.2
            hsent).1
      · rw [if_neg hrec]; exact stop_sent _ _
    · rw [if_neg hdone]; exact giveUp_sent _
  | timeout =>
    simp only [handleFetch]
    by_cases hdone : s.done = false
    · rw [if_pos hdone]
      simp only [RQState.recursiveMode, addTrace_upstream]
      by_cases hr0 : s.retries ≠ 0
      · rw [if_pos hr0]
        by_cases hrm : s.upstream.isEmpty = true
        · rw [if_pos hrm]
          rw [(send_unchanged env _).2.2.2.2.2.2.2.1]
          exact hsent
        · rw [if_neg hrm]
          rw [(send_unchanged env _).2.2.2.2.2.2.2.1]
          exact hsent
      · rw [if_neg hr0]; exact giveUp_sent _
    · rw [if_neg hdone]; exact giveUp_sent _

theorem step_sent_mono (env : Env) (e : Event) {s : RQState}
    (hsent : s.answer_sent = true) : (step env e s).answer_sent = true := by
  cases e with
  | udp res => exact handleFetch_sent_mono env res hsent
  | clientFire => exact clientTimeout_sent _
  | lookupFire => exact stop_sent _ _
  | nsasSuccess addr now =>
    simp only [step]
    rw [(sendTo_unchanged addr now _).2.2.2.2.2.2.2.1]
    exact hsent
  | nsasUnreachable => exact stop_sent _ _

theorem handleFetch_cname_mono (env : Env) (res : FetchResult) (s : RQState) :
    s.cname_count ≤ (handleFetch env res s).cname_count := by
  cases res with
  | success incoming now =>
    simp only [handleFetch]
    by_cases hdone : s.done = false
    · rw [if_pos hdone]
      simp only [RQState.recursiveMode, addTrace_upstream]
      by_cases hrec : s.upstream.isEmpty = true ∧ incoming.rcode = rcNOERROR
      · rw [if_pos hrec]
        have hb := (hRA_basic env incoming
          (addTrace (.parsed incoming)
            (addTrace (.rttUpdate s.current_ns_address
              (computeRTT now s.current_ns_qsent_time))
              { s with queries_out := s.queries_out - 1 }))).2.1
        by_cases hr1 : (handleRecursiveAnswer env incoming
            (addTrace (.parsed incoming)
              (addTrace (.rttUpdate s.current_ns_address
                (computeRTT now s.current_ns_qsent_time))
                { s with queries_out := s.queries_out - 1 }))).1 = true
        · rw [if_pos hr1]
          rw [(stop_unchanged true _).2.2.1]
          try exact le_rfl
          exact hb
        · rw [if_neg hr1]
          exact hb
      · rw [if_neg hrec]
        rw [(stop_unchanged true _).2.2.1]
        try exact le_rfl
    · rw [if_neg hdone]
      rw [(giveUp_unchanged _).1]
      try exact le_rfl
  | timeout =>
    simp only [handleFetch]
    by_cases hdone : s.done = false
    · rw [if_pos hdone]
      simp only [RQState.recursiveMode, addTrace_upstream]
      by_cases hr0 : s.retries ≠ 0
      · rw [if_pos hr0]
        by_cases hrm : s.upstream.isEmpty = true
        · rw [if_pos hrm]
          rw [(send_unchanged env _).2.2.1]
          try exact le_rfl
        · rw [if_neg hrm]
          rw [(send_unchanged env _).2.2.1]
          try exact le_rfl
      · rw [if_neg hr0]
        rw [(giveUp_unchanged _).1]
        try exact le_rfl
    · rw [if_neg hdone]
      rw [(giveUp_unchanged _).1]
      try exact le_rfl

theorem step_cname_mono (env : Env) (e : Event) (s : RQState) :
    s.cname_count ≤ (step env e s).cname_count := by
  cases e with
  | udp res => exact handleFetch_cname_mono env res s
  | clientFire =>
    simp only [step]
    rw [(clientTimeout_unchanged _).2.2.1]
    try exact le_rfl
  | lookupFire =>
    simp only [step]
    rw [(stop_unchanged false _).2.2.1]
    try exact le_rfl
  | nsasSuccess addr now =>
    simp only [step]
    rw [(sendTo_unchanged addr now _).2.2.1]
    try exact le_rfl
  | nsasUnreachable =>
    simp only [step]
    rw [(stop_unchanged false _).2.2.1]
    try exact le_rfl

theorem stop_resume_trace {s : RQState} (hb : s.answer_sent = false) :
    (stop true s).trace =
      (s.trace ++ [Action.cacheUpdate s.answer]) ++ [Action.success s.answer] ∧
    (stop true s).cache = s.cache.updateMsg s.answer := by
  simp only [stop]
  split_ifs with h1 <;>
    simp_all [signalSuccess, cacheInsert, addTrace]

theorem stop_trace_of_sent (b : Bool) {s : RQState} (hb : s.answer_sent = true)
    (hflag : s.nsas_callback_out = false) :
    (stop b s).trace = s.trace ∧ (stop b s).cache = s.cache := by
  simp only [stop]
  split_ifs <;> simp_all [signalSuccess, signalFailure, cacheInsert, addTrace]

theorem doLookup_trace_mono (env : Env) (s : RQState) :
    s.trace <+: (doLookup env s).trace := by
  simp only [doLookup]
  cases hm : s.cache.lookupMsg s.question with
  | some m =>
    simp only [hm]
    by_cases hr : (handleRecursiveAnswer env m s).1 = true
    · rw [if_pos hr]
      exact ((hRA_basic env m s).1).trans (stop_trace_mono true _)
    · rw [if_neg hr]
      exact (hRA_basic env m s).1
  | none =>
    simp only [hm]
    exact send_trace_mono env
      { s with cur_zone := ".", stepSends := s.stepSends + 1 }

theorem hRA_cache_first (env : Env) (incoming : Msg) (s : RQState)
    (hcat : (env.classify s.question incoming).1 = Category.ANSWER ∨
      (env.classify s.question incoming).1 = Category.ANSWERCNAME ∨
      (env.classify s.question incoming).1 = Category.REFERRAL ∨
      (env.classify s.question incoming).1 = Category.CNAME) :
    s.trace ++ [Action.cacheUpdate incoming] <+:
      (handleRecursiveAnswer env incoming s).2.trace := by
  rcases hcat with hx | hx | hx | hx
  · rw [hRA_eq_answer env incoming s hx]
    exact List.prefix_refl _
  · rw [hRA_eq_answercname env incoming s hx]
    exact List.prefix_refl _
  · cases hz : findNSZone incoming.authority with
    | some zone =>
      rw [hRA_eq_referral_found env incoming s zone hx hz]
      refine List.IsPrefix.trans ?_ (send_trace_mono env _)
      exact List.prefix_refl _
    | none =>
      rw [hRA_eq_referral_none env incoming s hx hz]
      exact List.prefix_refl _
  · by_cases hcn : MAX_CNAME_CHAIN ≤ s.cname_count + 1
    · rw [hRA_eq_cname_max env incoming s hx hcn]
      exact List.prefix_refl _
    · rw [hRA_eq_cname_cont env incoming s hx hcn]
      exact doLookup_trace_mono env
        (cnameRebind (env.classify s.question incoming).2 incoming
          (cacheInsert incoming s))

theorem handleFetch_rtt_first (env : Env) (incoming : Msg) (now : Timeval)
    {s : RQState} (hdone : s.done = false) :
    (s.trace ++ [Action.rttUpdate s.current_ns_address
        (computeRTT now s.current_ns_qsent_time)]) ++ [Action.parsed incoming]
      <+: (handleFetch env (.success incoming now) s).trace := by
  simp only [handleFetch]
  rw [if_pos hdone]
  simp only [RQState.recursiveMode, addTrace_upstream]
  by_cases hrec : s.upstream.isEmpty = true ∧ incoming.rcode = rcNOERROR
  · rw [if_pos hrec]
    by_cases hr1 : (handleRecursiveAnswer env incoming
        (addTrace (.parsed incoming)
          (addTrace (.rttUpdate s.current_ns_address
            (computeRTT now s.current_ns_qsent_time))
            { s with queries_out := s.queries_out - 1 }))).1 = true
    · rw [if_pos hr1]
      refine List.IsPrefix.trans ?_ (stop_trace_mono true _)
      exact (hRA_basic env incoming
        (addTrace (.parsed incoming)
          (addTrace (.rttUpdate s.current_ns_address
            (computeRTT now s.current_ns_qsent_time))
            { s with queries_out := s.queries_out - 1 }))).1
    · rw [if_neg hr1]
      exact (hRA_basic env incoming
        (addTrace (.parsed incoming)
          (addTrace (.rttUpdate s.current_ns_address
            (computeRTT now s.current_ns_qsent_time))
            { s with queries_out := s.queries_out - 1 }))).1
  · rw [if_neg hrec]
    refine List.IsPrefix.trans ?_ (stop_trace_mono true _)
    exact List.prefix_refl _

theorem handleFetch_done_eq (env : Env) (incoming : Msg) (now : Timeval)
    {s : RQState} (hdone : s.done = true) :
    handleFetch env (.success incoming now) s =
      giveUp { s with queries_out := s.queries_out - 1 } := by
  simp only [handleFetch]
  rw [if_neg (by simp [hdone])]

theorem stop_trace_shape (b : Bool) (s : RQState) :
    ∃ t, (stop b s).trace = s.trace ++ t ∧
      ∀ a ∈ t, (∀ mm : Msg, a ≠ Action.parsed mm) ∧
        (∀ mm : Msg, a = Action.cacheUpdate mm → mm = s.answer) := by
  simp only [stop]
  split_ifs with h1 h2 h3 h4 h5 h6
  · refine ⟨[Action.cacheUpdate s.answer, Action.success s.answer], ?_, ?_⟩
    · simp [signalSuccess, cacheInsert, addTrace]
    · intro a ha
      simp at ha
      rcases ha with ha | ha <;> subst ha <;>
        exact ⟨fun mm => by simp, fun mm hmm => by simp_all⟩
  · refine ⟨[Action.failure], ?_, ?_⟩
    · simp [signalFailure, addTrace]
    · intro a ha
      simp at ha
      subst ha
      exact ⟨fun mm => by simp, fun mm hmm => by simp_all⟩
  · exact ⟨[], by simp, by intro a ha; simp at ha⟩
  · exact ⟨[], by simp, by intro a ha; simp at ha⟩
  · exact ⟨[], by simp, by intro a ha; simp at ha⟩
  · refine ⟨[Action.nsasCancel s.cur_zone], ?_, ?_⟩
    · simp [addTrace]
    · intro a ha
      simp at ha
      subst ha
      exact ⟨fun mm => by simp, fun mm hmm => by simp_all⟩
  · exact ⟨[], by simp, by intro a ha; simp at ha⟩

theorem giveUp_trace_shape (s : RQState) :
    ∃ t, (giveUp s).trace = s.trace ++ t ∧
      ∀ a ∈ t, (∀ mm : Msg, a ≠ Action.parsed mm) ∧
        (∀ mm : Msg, a = Action.cacheUpdate mm →
          mm = makeErrorMessage s.answer rcSERVFAIL ∨ mm = s.answer) := by
  simp only [giveUp]
  split_ifs with h1 h2 h2
  · obtain ⟨t, ht, hprop⟩ := stop_trace_shape
      (!(makeSERVFAIL (addTrace
        (Action.rttUpdate s.current_ns_address UNREACHABLE) s)).answer_sent)
      (makeSERVFAIL (addTrace (Action.rttUpdate s.current_ns_address UNREACHABLE) s))
    refine ⟨[Action.rttUpdate s.current_ns_address UNREACHABLE] ++ t, ?_, ?_⟩
    · rw [ht]; simp [makeSERVFAIL, addTrace]
    · intro a ha
      rcases List.mem_append.mp ha with ha | ha
      · simp at ha
        subst ha
        exact ⟨fun mm => by simp, fun mm hmm => by simp_all⟩
      · obtain ⟨p1, p2⟩ := hprop a ha
        exact ⟨p1, fun mm hmm => Or.inl (p2 mm hmm)⟩
  · obtain ⟨t, ht, hprop⟩ := stop_trace_shape
      (!(addTrace (Action.rttUpdate s.current_ns_address UNREACHABLE) s).answer_sent)
      (addTrace (Action.rttUpdate s.current_ns_address UNREACHABLE) s)
    refine ⟨[Action.rttUpdate s.current_ns_address UNREACHABLE] ++ t, ?_, ?_⟩
    · rw [ht]; simp [addTrace]
    · intro a ha
      rcases List.mem_append.mp ha with ha | ha
      · simp at ha
        subst ha
        exact ⟨fun mm => by simp, fun mm hmm => by simp_all⟩
      · obtain ⟨p1, p2⟩ := hprop a ha
        exact ⟨p1, fun mm hmm => Or.inr (p2 mm hmm)⟩
  · obtain ⟨t, ht, hprop⟩ := stop_trace_shape
      (!(makeSERVFAIL s).answer_sent) (makeSERVFAIL s)
    refine ⟨t, ?_, ?_⟩
    · rw [ht]; rfl
    · intro a ha
      obtain ⟨p1, p2⟩ := hprop a ha
      exact ⟨p1, fun mm hmm => Or.inl (p2 mm hmm)⟩
  · obtain ⟨t, ht, hprop⟩ := stop_trace_shape (!s.answer_sent) s
    refine ⟨t, ?_, ?_⟩
    · rw [ht]
    · intro a ha
      obtain ⟨p1, p2⟩ := hprop a ha
      exact ⟨p1, fun mm hmm => Or.inr (p2 mm hmm)⟩

theorem giveUp_answer (s : RQState) :
    (giveUp s).answer =
      if s.answer_sent = false then makeErrorMessage s.answer rcSERVFAIL
      else s.answer := by
  have hstopans : ∀ b : Bool, ∀ t : RQState, (stop b t).answer = t.answer := by
    intro b t
    simp only [stop]
    split_ifs <;> simp [signalSuccess, signalFailure, cacheInsert, addTrace]
  simp only [giveUp]
  split_ifs with h1 h2 h2 <;>
    simp_all [hstopans, makeSERVFAIL, addTrace]

theorem handleFetch_timeout_retry (env : Env) {s : RQState}
    (hdone : s.done = false) (hr0 : s.retries ≠ 0) :
    handleFetch env .timeout s = send env
      (if s.upstream.isEmpty = true then
        addTrace (Action.rttUpdate s.current_ns_address UNREACHABLE)
          { s with
            queries_out := s.queries_out - 1,
            retries := s.retries - 1,
            retryCount := s.retryCount + 1 }
       else
        { s with
          queries_out := s.queries_out - 1,
          retries := s.retries - 1,
          retryCount := s.retryCount + 1 }) := by
  simp only [handleFetch]
  rw [if_pos hdone]
  simp only [RQState.recursiveMode, addTrace_upstream]
  rw [if_pos hr0]
  rw [if_neg hr0]

theorem clientFire_eq (env : Env) {s : RQState} (hsent : s.answer_sent = false)
    (hcanc : s.client_timer_canceled = false) :
    step env .clientFire s =
      signalSuccess (makeSERVFAIL
        { s with
          client_timer := .fired
          answer_sent := true }) := by
  simp only [step, clientTimeout]
  split_ifs with h1
  · have hc : s.client_timer_canceled = true := h1
    rw [hcanc] at hc
    exact Bool.noConfusion hc
  · rfl

theorem giveUp_penalty {s : RQState} (hrm : s.recursiveMode = true) :
    Action.rttUpdate s.current_ns_address UNREACHABLE ∈ (giveUp s).trace := by
  simp only [giveUp]
  rw [if_pos hrm]
  split_ifs with h2
  · refine (stop_trace_mono _ _).subset ?_
    show Action.rttUpdate s.current_ns_address UNREACHABLE ∈
      s.trace ++ [Action.rttUpdate s.current_ns_address UNREACHABLE]
    simp
  · refine (stop_trace_mono _ _).subset ?_
    show Action.rttUpdate s.current_ns_address UNREACHABLE ∈
      s.trace ++ [Action.rttUpdate s.current_ns_address UNREACHABLE]
    simp

theorem stop_copy_trace (incoming : Msg) (x : RQState)
    (hsent : x.answer_sent = true) (hflag : x.nsas_callback_out = false) :
    (stop true
      { x with
        answer := copyResponseMessage incoming x.answer
        done := true }).trace = x.trace := by
  have h1 : ({ x with
      answer := copyResponseMessage incoming x.answer
      done := true } : RQState).answer_sent = true := hsent
  have h2 : ({ x with
      answer := copyResponseMessage incoming x.answer
      done := true } : RQState).nsas_callback_out = false := hflag
  exact (stop_trace_of_sent true h1 h2).1

theorem handleFetch_cache_mem (env : Env) (incoming : Msg) (now : Timeval)
    {s : RQState} (hdone : s.done = false)
    (hrec : s.upstream.isEmpty = true) (hrc : incoming.rcode = rcNOERROR)
    (hcat : (env.classify s.question incoming).1 = Category.ANSWER) :
    Action.cacheUpdate incoming ∈
      (handleFetch env (.success incoming now) s).trace := by
  simp only [handleFetch]
  rw [if_pos hdone]
  simp only [RQState.recursiveMode, addTrace_upstream]
  rw [if_pos
    (⟨hrec, hrc⟩ : s.upstream.isEmpty = true ∧ incoming.rcode = rcNOERROR)]
  have hcatB : (env.classify (addTrace (.parsed incoming)
      (addTrace (.rttUpdate s.current_ns_address
        (computeRTT now s.current_ns_qsent_time))
        { s with queries_out := s.queries_out - 1 })).question incoming).1 =
      Category.ANSWER := hcat
  have hmem : Action.cacheUpdate incoming ∈
      (handleRecursiveAnswer env incoming (addTrace (.parsed incoming)
        (addTrace (.rttUpdate s.current_ns_address
          (computeRTT now s.current_ns_qsent_time))
          { s with queries_out := s.queries_out - 1 }))).2.trace :=
    (hRA_cache_first env incoming _ (Or.inl hcatB)).subset (by simp)
  by_cases hr1 : (handleRecursiveAnswer env incoming (addTrace (.parsed incoming)
      (addTrace (.rttUpdate s.current_ns_address
        (computeRTT now s.current_ns_qsent_time))
        { s with queries_out := s.queries_out - 1 }))).1 = true
  · rw [if_pos hr1]
    refine (stop_trace_mono true _).subset ?_
    exact hmem
  · rw [if_neg hr1]
    exact hmem

theorem handleFetch_forward_trace (env : Env) (incoming : Msg) (now : Timeval)
    {s : RQState} (hdone : s.done = false) (hup : s.upstream.isEmpty = false)
    (hsent : s.answer_sent = true) (hflag : s.nsas_callback_out = false) :
    (handleFetch env (.success incoming now) s).trace =
      (s.trace ++ [Action.rttUpdate s.current_ns_address
        (computeRTT now s.current_ns_qsent_time)]) ++ [Action.parsed incoming] := by
  simp only [handleFetch]
  rw [if_pos hdone]
  simp only [RQState.recursiveMode, addTrace_upstream]
  rw [if_neg (show ¬ (s.upstream.isEmpty = true ∧ incoming.rcode = rcNOERROR) from
    fun hc => by rw [hup] at hc; exact Bool.noConfusion hc.1)]
  exact stop_copy_trace incoming
    (addTrace (Action.parsed incoming)
      (addTrace (Action.rttUpdate s.current_ns_address
        (computeRTT now s.current_ns_qsent_time))
        { s with queries_out := s.queries_out - 1 }))
    hsent hflag

/-- Claim C3: on every completion entered through `stop(true)` before an
answer was delivered, the accumulated AnswerMessage is inserted into the
cache and the cache-update action precedes the success signal in the trace;
and on every intermediate response classified ANSWER, ANSWERCNAME, REFERRAL
or CNAME, `handleRecursiveAnswer` records the cache insertion of that
incoming message directly after the prior trace, before anything else it
does. -/
theorem C3_cache_population (env : Env) (incoming : Msg) (sA sB : RQState)
    (hb : sA.answer_sent = false)
    (hcat : (env.classify sB.question incoming).1 = Category.ANSWER ∨
      (env.classify sB.question incoming).1 = Category.ANSWERCNAME ∨
      (env.classify sB.question incoming).1 = Category.REFERRAL ∨
      (env.classify sB.question incoming).1 = Category.CNAME) :
    ((stop true sA).trace =
      (sA.trace ++ [Action.cacheUpdate sA.answer]) ++ [Action.success sA.answer] ∧
     (stop true sA).cache = sA.cache.updateMsg sA.answer) ∧
    sB.trace ++ [Action.cacheUpdate incoming] <+:
      (handleRecursiveAnswer env incoming sB).2.trace :=
  ⟨stop_resume_trace hb, hRA_cache_first env incoming sB hcat⟩

/-- Witness for C3 at concrete inputs: the fresh iterative state with the
sample positive answer, which `env0` classifies as ANSWER. -/
theorem C3_cache_population_witness :
    (((stop true (initialState cfgI q0 (initResponseMessage q0) cache0)).trace =
      ((initialState cfgI q0 (initResponseMessage q0) cache0).trace ++
        [Action.cacheUpdate (initialState cfgI q0 (initResponseMessage q0) cache0).answer]) ++
        [Action.success (initialState cfgI q0 (initResponseMessage q0) cache0).answer] ∧
     (stop true (initialState cfgI q0 (initResponseMessage q0) cache0)).cache =
       (initialState cfgI q0 (initResponseMessage q0) cache0).cache.updateMsg
         (initialState cfgI q0 (initResponseMessage q0) cache0).answer) ∧
    (initialState cfgI q0 (initResponseMessage q0) cache0).trace ++
        [Action.cacheUpdate mAns] <+:
      (handleRecursiveAnswer env0 mAns
        (initialState cfgI q0 (initResponseMessage q0) cache0)).2.trace) :=
  C3_cache_population env0 mAns
    (initialState cfgI q0 (initResponseMessage q0) cache0)
    (initialState cfgI q0 (initResponseMessage q0) cache0)
    (by decide) (Or.inl (by decide))

/-- Claim C4: on a response classified CNAME the incoming message is inserted
into the cache; if the incremented CNAME counter reaches MAX_CNAME_CHAIN the
AnswerMessage is made SERVFAIL and the result is final, otherwise the
Question is rebound to the CNAME target (same class and type), the incoming
ANSWER section is appended (`cnameRebind`), `doLookup` is called, and the
result is not final; moreover `cname_count` never decreases across any event
and stays bounded by MAX_CNAME_CHAIN on every reachable state. -/
theorem C4_cname_handling (env : Env) (incoming : Msg) (s : RQState)
    (hx : (env.classify s.question incoming).1 = Category.CNAME) :
    (MAX_CNAME_CHAIN ≤ s.cname_count + 1 →
      handleRecursiveAnswer env incoming s =
        (true, makeSERVFAIL
          { cacheInsert incoming s with cname_count := s.cname_count + 1 })) ∧
    (s.cname_count + 1 < MAX_CNAME_CHAIN →
      handleRecursiveAnswer env incoming s =
        (false, doLookup env
          (cnameRebind (env.classify s.question incoming).2 incoming
            (cacheInsert incoming s)))) ∧
    (∀ e : Event, s.cname_count ≤ (step env e s).cname_count) ∧
    (∀ (cfg : Config) (q : Question) (ans : Msg) (cache : Cache) (s2 : RQState),
      Reach env (mkRunningQuery env cfg q ans cache) s2 →
      s2.cname_count ≤ MAX_CNAME_CHAIN) :=
  ⟨fun hcn => hRA_eq_cname_max env incoming s hx hcn,
   fun hlt => hRA_eq_cname_cont env incoming s hx (by omega),
   fun e => step_cname_mono env e s,
   fun cfg q ans cache s2 hr =>
     (inv_reach env hr (inv_mk env cfg q ans cache)).cname_le⟩

/-- Witness for C4 at concrete inputs: the always-CNAME classifier `envC` on
the fresh iterative state. -/
theorem C4_cname_handling_witness :
    (MAX_CNAME_CHAIN ≤
        (initialState cfgI q0 (initResponseMessage q0) cache0).cname_count + 1 →
      handleRecursiveAnswer envC mAns
          (initialState cfgI q0 (initResponseMessage q0) cache0) =
        (true, makeSERVFAIL
          { cacheInsert mAns (initialState cfgI q0 (initResponseMessage q0) cache0) with
            cname_count :=
              (initialState cfgI q0 (initResponseMessage q0) cache0).cname_count + 1 })) ∧
    ((initialState cfgI q0 (initResponseMessage q0) cache0).cname_count + 1 <
        MAX_CNAME_CHAIN →
      handleRecursiveAnswer envC mAns
          (initialState cfgI q0 (initResponseMessage q0) cache0) =
        (false, doLookup envC
          (cnameRebind (envC.classify
              (initialState cfgI q0 (initResponseMessage q0) cache0).question mAns).2
            mAns
            (cacheInsert mAns
              (initialState cfgI q0 (initResponseMessage q0) cache0))))) ∧
    (∀ e : Event,
      (initialState cfgI q0 (initResponseMessage q0) cache0).cname_count ≤
        (step envC e (initialState cfgI q0 (initResponseMessage q0) cache0)).cname_count) ∧
    (∀ (cfg : Config) (q : Question) (ans : Msg) (cache : Cache) (s2 : RQState),
      Reach envC (mkRunningQuery envC cfg q ans cache) s2 →
      s2.cname_count ≤ MAX_CNAME_CHAIN) :=
  C4_cname_handling envC mAns
    (initialState cfgI q0 (initResponseMessage q0) cache0) (by decide)

/-- Claim C6: on every reachable state of a `RunningQuery` the ghost flag
recording a violation of the `assert(!nsas_callback_out_)` in `send()` is
still false (the assertion never fails), and the number of outstanding NSAS
requests is at most one. -/
theorem C6_nsas_assertion (env : Env) (cfg : Config) (q : Question) (ans : Msg)
    (cache : Cache) (s : RQState)
    (hr : Reach env (mkRunningQuery env cfg q ans cache) s) :
    s.assertFailed = false ∧ s.nsasOut ≤ 1 := by
  have hinv := inv_reach env hr (inv_mk env cfg q ans cache)
  refine ⟨hinv.assertOk, ?_⟩
  rw [hinv.nsasOut_eq]
  cases s.nsas_callback_out <;> decide

/-- Witness for C6: the iterative scenario one admissible event after the
spawn (the NSAS success callback that triggers `send`/`sendTo`). -/
theorem C6_nsas_assertion_witness :
    sI1.assertFailed = false ∧ sI1.nsasOut ≤ 1 :=
  C6_nsas_assertion env0 cfgI q0 (initResponseMessage q0) cache0 sI1
    (Reach.tail (.nsasSuccess "9.9.9.9" ⟨1, 0⟩) (Reach.refl sI0) (by decide))

/-- Claim C7: on any reachable state that is not done and still has retries
left, a UDP timeout decrements the retry counter, applies the UNREACHABLE
RTT penalty to the attempted address in iterative mode, and calls `send`
again; and the retry accounting bounds the fetch count: the retries used so
far plus the retries left equal the configured count, and the number of UDP
fetches issued never exceeds the number of resolution-step sends plus the
configured retry count. -/
theorem C7_retry_bound (env : Env) (cfg : Config) (q : Question) (ans : Msg)
    (cache : Cache) (s : RQState)
    (hr : Reach env (mkRunningQuery env cfg q ans cache) s)
    (hdone : s.done = false) (hr0 : s.retries ≠ 0) :
    handleFetch env .timeout s = send env
      (if s.upstream.isEmpty = true then
        addTrace (Action.rttUpdate s.current_ns_address UNREACHABLE)
          { s with
            queries_out := s.queries_out - 1,
            retries := s.retries - 1,
            retryCount := s.retryCount + 1 }
       else
        { s with
          queries_out := s.queries_out - 1,
          retries := s.retries - 1,
          retryCount := s.retryCount + 1 }) ∧
    s.retryCount + s.retries = cfg.retries ∧
    s.fetches + flagBit s.nsas_callback_out ≤ s.stepSends + s.retryCount ∧
    s.fetches ≤ s.stepSends + cfg.retries := by
  have hinv := inv_reach env hr (inv_mk env cfg q ans cache)
  refine ⟨handleFetch_timeout_retry env hdone hr0, hinv.retr_eq hdone,
    hinv.fetch_le, ?_⟩
  have h1 := hinv.fetch_le
  have h2 := hinv.retr_le
  omega

/-- Witness for C7: the iterative scenario right after the first UDP fetch
was posted (done is false, both configured retries remain). -/
theorem C7_retry_bound_witness :
    (handleFetch env0 .timeout sI1 = send env0
      (if sI1.upstream.isEmpty = true then
        addTrace (Action.rttUpdate sI1.current_ns_address UNREACHABLE)
          { sI1 with
            queries_out := sI1.queries_out - 1,
            retries := sI1.retries - 1,
            retryCount := sI1.retryCount + 1 }
       else
        { sI1 with
          queries_out := sI1.queries_out - 1,
          retries := sI1.retries - 1,
          retryCount := sI1.retryCount + 1 }) ∧
    sI1.retryCount + sI1.retries = cfgI.retries ∧
    sI1.fetches + flagBit sI1.nsas_callback_out ≤ sI1.stepSends + sI1.retryCount ∧
    sI1.fetches ≤ sI1.stepSends + cfgI.retries) :=
  C7_retry_bound env0 cfgI q0 (initResponseMessage q0) cache0 sI1
    (Reach.tail (.nsasSuccess "9.9.9.9" ⟨1, 0⟩) (Reach.refl sI0) (by decide))
    (by decide) (by decide)

/-- Claim C8 (amended): when the completion wall clock exceeds the send
timestamp non-strictly in the seconds field and STRICTLY in the microseconds
field, the reported RTT is the whole-millisecond difference (truncated to
uint32); in every other case — including the case `usec_now = usec_sent`
where the specified formula is still well defined — the reported RTT is
1 ms; and on a non-timeout completion with the query not done, the RTT
report for the current address followed by the parse of the response are the
first actions appended to the trace.  The source checks `tv_usec` with a
strict `>`, so equal microsecond fields yield 1 ms, not the formula; the
original claim's condition ("less than in either field") is corrected. -/
theorem C8_rtt_computation (now sent : Timeval) :
    (sent.sec ≤ now.sec ∧ sent.usec < now.usec →
      computeRTT now sent =
        (1000 * (now.sec - sent.sec) + (now.usec - sent.usec) / 1000) % 2 ^ 32) ∧
    (¬ (sent.sec ≤ now.sec ∧ sent.usec < now.usec) → computeRTT now sent = 1) ∧
    ∀ (env : Env) (incoming : Msg) (s : RQState), s.done = false →
      (s.trace ++ [Action.rttUpdate s.current_ns_address
          (computeRTT now s.current_ns_qsent_time)]) ++ [Action.parsed incoming]
        <+: (handleFetch env (.success incoming now) s).trace := by
  refine ⟨fun h => ?_, fun h => ?_,
    fun env incoming s hdone => handleFetch_rtt_first env incoming now hdone⟩
  · simp only [computeRTT]
    rw [if_pos h]
  · simp only [computeRTT]
    rw [if_neg h]

/-- Witness for C8 at a concrete clock pair with both fields ahead. -/
theorem C8_rtt_computation_witness :
    computeRTT ⟨5, 400⟩ ⟨3, 300⟩ =
      (1000 * (5 - 3) + (400 - 300) / 1000) % 2 ^ 32 :=
  (C8_rtt_computation ⟨5, 400⟩ ⟨3, 300⟩).1 (by decide)

/-- Counterexample to claim C8 as stated: with seconds ahead by 2 and the
microsecond fields EQUAL, the current wall clock is not less than the send
time in either field, yet the code reports 1 ms where the claimed formula
gives 2000 ms — the source requires `tv_usec` strictly greater, not merely
not-less. -/
theorem C8_rtt_counterexample :
    computeRTT ⟨5, 300⟩ ⟨3, 300⟩ = 1 ∧
    ¬ ((5 : Nat) < 3 ∨ (300 : Nat) < 300) ∧
    1000 * (5 - 3) + (300 - 300) / 1000 = 2000 ∧ (1 : Nat) ≠ 2000 := by
  decide

/-- Claim C9: the two `RecursiveQuery::resolve` overloads are behaviourally
equivalent: starting from a fresh (`Message(Message::RENDER)`-equivalent)
answer message, the overload that sets opcode QUERY and adds the question to
the caller's message performs the same cache probes, emits the same
synchronous callbacks, and spawns the same `RunningQuery` as the overload
that builds its response message via `initResponseMessage`. -/
theorem C9_resolve_overloads (env : Env) (cfg : Config) (cache : Cache)
    (q : Question) (answer0 : Msg) (h0 : answer0 = emptyMsg) :
    resolve2 env cfg cache q answer0 = resolve1 env cfg cache q := by
  subst h0
  rfl

/-- Witness for C9 at concrete inputs (forwarding configuration, empty
cache). -/
theorem C9_resolve_overloads_witness :
    resolve2 env0 cfgF cache0 q0 emptyMsg = resolve1 env0 cfgF cache0 q0 :=
  C9_resolve_overloads env0 cfgF cache0 q0 emptyMsg rfl

/-- Claim C1: on every state reachable from a spawned `RunningQuery` under
admissible serialized events, the caller's callback has been invoked at most
once; it has been invoked exactly once precisely when `answer_sent` is set;
by the time the object destroys itself it has been invoked exactly once; and
once an answer has been signalled, no further admissible event ever adds a
second caller signal. -/
theorem C1_single_completion (env : Env) (cfg : Config) (q : Question)
    (ans : Msg) (cache : Cache) (s : RQState)
    (hr : Reach env (mkRunningQuery env cfg q ans cache) s) :
    sigCount s ≤ 1 ∧
    (s.answer_sent = true ↔ sigCount s = 1) ∧
    (s.deleted = true → sigCount s = 1) ∧
    (∀ e : Event, canFire s e → s.answer_sent = true →
      sigCount (step env e s) = sigCount s) := by
  have hinv := inv_reach env hr (inv_mk env cfg q ans cache)
  refine ⟨hinv.sig_le, hinv.sent_iff, ?_, ?_⟩
  · intro hd
    exact hinv.sent_iff.mp (hinv.del hd).1
  · intro e hcf hsent
    have hinv2 := inv_step env e hinv hcf
    rw [hinv2.sent_iff.mp (step_sent_mono env e hsent),
      hinv.sent_iff.mp hsent]

/-- Witness for C1: the forwarding scenario one admissible event after the
spawn (the client timer fired). -/
theorem C1_single_completion_witness :
    sigCount sF1 ≤ 1 ∧
    (sF1.answer_sent = true ↔ sigCount sF1 = 1) ∧
    (sF1.deleted = true → sigCount sF1 = 1) ∧
    (∀ e : Event, canFire sF1 e → sF1.answer_sent = true →
      sigCount (step env0 e sF1) = sigCount sF1) :=
  C1_single_completion env0 cfgF q0 (initResponseMessage q0) cache0 sF1
    (Reach.tail .clientFire (Reach.refl sF0) (by decide))

/-- Claim C5 (amended): when BOTH cache probes miss, the spawned
`RunningQuery`'s constructor performs no synchronous caller callback (its
trace holds no signal), and `resolve` itself performs none either.  The
original claim is wrong for the spawn path in which the full-message probe
HITS but the hit fails the `> 0` ANSWER-count check (for example a cached
SERVFAIL): a `RunningQuery` is spawned and its constructor's `doLookup` hits
the cached message again and invokes the caller's callback synchronously on
the same stack. -/
theorem C5_no_sync_callback (env : Env) (cfg : Config) (cache : Cache)
    (q : Question) (hmiss : cache.lookupMsg q = none)
    (hrr : cache.lookupRRset q = none) :
    (resolve1 env cfg cache q).trace = [] ∧
    (resolve1 env cfg cache q).spawned =
      some (mkRunningQuery env cfg q (initResponseMessage q) cache) ∧
    sigCount (mkRunningQuery env cfg q (initResponseMessage q) cache) = 0 := by
  refine ⟨?_, ?_, ?_⟩
  · simp [resolve1, hmiss, hrr]
  · simp [resolve1, hmiss, hrr]
  · show sigCount (doLookup env (initialState cfg q (initResponseMessage q) cache)) = 0
    simp only [doLookup, initialState]
    simp only [hmiss]
    rw [send_sig]
    rfl

/-- Witness for C5 on the empty cache. -/
theorem C5_no_sync_callback_witness :
    (resolve1 env0 cfgI cache0 q0).trace = [] ∧
    (resolve1 env0 cfgI cache0 q0).spawned =
      some (mkRunningQuery env0 cfgI q0 (initResponseMessage q0) cache0) ∧
    sigCount (mkRunningQuery env0 cfgI q0 (initResponseMessage q0) cache0) = 0 :=
  C5_no_sync_callback env0 cfgI cache0 q0 rfl rfl

/-- Counterexample to claim C5 as stated: with a cached SERVFAIL message for
the question (zero ANSWER RRs), `resolve` takes the spawn path — the
full-message probe hit fails the `> 0` answer-count check and the RRset
probe misses — yet the spawned constructor already carries one caller
signal in its trace: the callback ran synchronously on `resolve`'s stack. -/
theorem C5_sync_callback_counterexample :
    (resolve1 env0 cfgI cacheSF q0).trace = [] ∧
    (resolve1 env0 cfgI cacheSF q0).spawned.map sigCount = some 1 ∧
    cacheSF.lookupMsg q0 = some mSF ∧ mSF.answer.length = 0 := by
  have hx : ((env0.classify
      (initialState cfgI q0 mSF cacheSF).question mSF).1).isError = true := rfl
  have hr := hRA_eq_error env0 mSF (initialState cfgI q0 mSF cacheSF) hx
  refine ⟨rfl, ?_, rfl, rfl⟩
  show Option.map sigCount
    (some (mkRunningQuery env0 cfgI q0 mSF cacheSF)) = some 1
  simp only [Option.map]
  show some (sigCount (doLookup env0 (initialState cfgI q0 mSF cacheSF))) = some 1
  show some (sigCount
    (if (handleRecursiveAnswer env0 mSF (initialState cfgI q0 mSF cacheSF)).1 = true
     then stop true
       (handleRecursiveAnswer env0 mSF (initialState cfgI q0 mSF cacheSF)).2
     else (handleRecursiveAnswer env0 mSF (initialState cfgI q0 mSF cacheSF)).2))
    = some 1
  rw [hr]
  decide

/-- Claim C10: once `done` is set, a late UDP completion — even a successful
one — reduces to the give-up path: the state change is exactly
`giveUp` of the query with `queries_out` decremented; the answer becomes
SERVFAIL only if none was delivered yet; in iterative mode the UNREACHABLE
RTT penalty for the current address is recorded; the trace gains no parse
action and no cache update other than possibly the query's own (possibly
SERVFAILed) accumulated answer — the incoming message is never parsed,
classified or cached; and afterwards an answer has been signalled (stop ran
with resume equal to the negation of `answer_sent`). -/
theorem C10_late_completion (env : Env) (incoming : Msg) (now : Timeval)
    (s : RQState) (hdone : s.done = true) :
    step env (.udp (.success incoming now)) s =
      giveUp { s with queries_out := s.queries_out - 1 } ∧
    (step env (.udp (.success incoming now)) s).queries_out =
      s.queries_out - 1 ∧
    (step env (.udp (.success incoming now)) s).answer =
      (if s.answer_sent = false then makeErrorMessage s.answer rcSERVFAIL
       else s.answer) ∧
    (s.upstream.isEmpty = true →
      Action.rttUpdate s.current_ns_address UNREACHABLE ∈
        (step env (.udp (.success incoming now)) s).trace) ∧
    (∃ t, (step env (.udp (.success incoming now)) s).trace = s.trace ++ t ∧
      ∀ a ∈ t, (∀ mm : Msg, a ≠ Action.parsed mm) ∧
        (∀ mm : Msg, a = Action.cacheUpdate mm →
          mm = makeErrorMessage s.answer rcSERVFAIL ∨ mm = s.answer)) ∧
    (step env (.udp (.success incoming now)) s).answer_sent = true := by
  have h1 : step env (.udp (.success incoming now)) s =
      giveUp { s with queries_out := s.queries_out - 1 } := by
    simp only [step]
    exact handleFetch_done_eq env incoming now hdone
  refine ⟨h1, ?_, ?_, ?_, ?_, ?_⟩ <;> rw [h1]
  · exact (giveUp_unchanged _).2.2.2.1
  · exact giveUp_answer _
  · intro hup
    exact giveUp_penalty
      (show ({ s with queries_out := s.queries_out - 1 } : RQState).recursiveMode
        = true from hup)
  · exact giveUp_trace_shape _
  · exact giveUp_sent _

/-- Witness for C10: the forwarding scenario after its answer was handled
(`done` is set) receiving one more late UDP completion. -/
theorem C10_late_completion_witness :
    step env0 (.udp (.success mAns ⟨9, 9⟩)) sF2 =
      giveUp { sF2 with queries_out := sF2.queries_out - 1 } :=
  (C10_late_completion env0 mAns ⟨9, 9⟩ sF2 (by decide)).1

/-- Claim C2 (amended): on any reachable state with no answer delivered, no
pending cancellation of the client timer, the query not done and no NSAS
request outstanding, a client-timer fire delivers SERVFAIL to the caller via
`success` (exactly one signal so far), and a later valid answer produces no
second caller signal; in ITERATIVE mode a NOERROR answer classified ANSWER
is then inserted into the cache — but in FORWARDING mode it is NOT: the
late completion only appends the RTT report and the parse action to the
trace, so the cache is never updated with the real answer.  The original
claim's "this holds in both forwarding and iterative" is corrected: the
forwarding path reaches `stop(true)` with `answer_sent` already set, which
skips the cache insertion. -/
theorem C2_client_deadline (env : Env) (cfg : Config) (q : Question)
    (ans : Msg) (cache : Cache) (incoming : Msg) (now : Timeval) (s : RQState)
    (hr : Reach env (mkRunningQuery env cfg q ans cache) s)
    (hcf1 : canFire s .clientFire)
    (hcf2 : canFire (step env .clientFire s) (.udp (.success incoming now)))
    (hsent : s.answer_sent = false) (hcanc : s.client_timer_canceled = false)
    (hdone : s.done = false) (hflag : s.nsas_callback_out = false) :
    step env .clientFire s =
      signalSuccess (makeSERVFAIL
        { s with
          client_timer := .fired
          answer_sent := true }) ∧
    sigCount (step env .clientFire s) = 1 ∧
    sigCount (step env (.udp (.success incoming now)) (step env .clientFire s))
      = 1 ∧
    (s.upstream.isEmpty = true → incoming.rcode = rcNOERROR →
      (env.classify s.question incoming).1 = Category.ANSWER →
      Action.cacheUpdate incoming ∈
        (step env (.udp (.success incoming now)) (step env .clientFire s)).trace) ∧
    (s.upstream.isEmpty = false →
      (step env (.udp (.success incoming now)) (step env .clientFire s)).trace =
        ((step env .clientFire s).trace ++
          [Action.rttUpdate s.current_ns_address
            (computeRTT now s.current_ns_qsent_time)]) ++
          [Action.parsed incoming]) := by
  have hEq := clientFire_eq env hsent hcanc
  have hinv := inv_reach env hr (inv_mk env cfg q ans cache)
  have hinv1 := inv_step env .clientFire hinv hcf1
  have hs1sent : (step env .clientFire s).answer_sent = true := by
    rw [hEq]; rfl
  have hinv2 := inv_step env (.udp (.success incoming now)) hinv1 hcf2
  refine ⟨hEq, hinv1.sent_iff.mp hs1sent,
    hinv2.sent_iff.mp
      (step_sent_mono env (.udp (.success incoming now)) hs1sent),
    ?_, ?_⟩
  · intro hup hrc hcat
    rw [hEq]
    simp only [step]
    refine handleFetch_cache_mem env incoming now ?_ ?_ hrc ?_
    · exact hdone
    · exact hup
    · exact hcat
  · intro hup
    rw [hEq]
    simp only [step]
    refine handleFetch_forward_trace env incoming now ?_ ?_ ?_ ?_
    · exact hdone
    · exact hup
    · rfl
    · exact hflag

/-- Witness for C2: the forwarding scenario — spawn, client-timer fire, late
valid answer — with every hypothesis checked by evaluation. -/
theorem C2_client_deadline_witness :
    step env0 .clientFire sF0 =
      signalSuccess (makeSERVFAIL
        { sF0 with
          client_timer := .fired
          answer_sent := true }) ∧
    sigCount (step env0 .clientFire sF0) = 1 ∧
    sigCount (step env0 (.udp (.success mAns ⟨3, 500⟩)) (step env0 .clientFire sF0))
      = 1 ∧
    (sF0.upstream.isEmpty = true → mAns.rcode = rcNOERROR →
      (env0.classify sF0.question mAns).1 = Category.ANSWER →
      Action.cacheUpdate mAns ∈
        (step env0 (.udp (.success mAns ⟨3, 500⟩)) (step env0 .clientFire sF0)).trace) ∧
    (sF0.upstream.isEmpty = false →
      (step env0 (.udp (.success mAns ⟨3, 500⟩)) (step env0 .clientFire sF0)).trace =
        ((step env0 .clientFire sF0).trace ++
          [Action.rttUpdate sF0.current_ns_address
            (computeRTT ⟨3, 500⟩ sF0.current_ns_qsent_time)]) ++
          [Action.parsed mAns]) :=
  C2_client_deadline env0 cfgF q0 (initResponseMessage q0) cache0 mAns ⟨3, 500⟩
    sF0 (Reach.refl sF0) (by decide) (by decide) (by decide) (by decide)
    (by decide) (by decide)

/-- Counterexample to claim C2 as stated: in FORWARDING mode (one upstream
forwarder), after the client timer delivered SERVFAIL and the real answer
then arrived, the caller was signalled exactly once — but the real answer
was never inserted into the cache: no cache-update action for it is in the
trace and the message cache is still empty. -/
theorem C2_forwarding_cache_counterexample :
    sF0.upstream = [("8.8.8.8", 53)] ∧
    sF1.answer_sent = true ∧
    sigCount sF2 = 1 ∧
    Action.parsed mAns ∈ sF2.trace ∧
    Action.cacheUpdate mAns ∉ sF2.trace ∧
    sF2.cache.msgs = [] := by
  decide

end KeaResolver
